import Mathlib

/-!
Verification of the schema-migration scripts of the `resumate` repository.

The scripts under `scripts/` evolve a PostgreSQL schema: `run-migration.py`
(function `fix_foreign_key_constraint`) narrows `job_analysis.user_id` to
`VARCHAR(255)` and re-creates foreign keys after pre-flight data validation;
`run-cv-migration.py`, `run-onboarding-migration.py`,
`scripts/migrations/run_health_check_migration.py` and `setup-database.py`
run further DDL batches.

The embedding below models the database state touched by those statements
(row values of the relevant columns, column types, constraint names, index
names, extra columns) and each script as a function from that state to a
run result carrying the event trace (statements issued on the connection),
the finally committed state, and the success flag.  Transaction semantics
follow psycopg2: every statement acts on an uncommitted working state; an
exception triggers `conn.rollback()`, so the committed state reverts to the
pre-run state; `conn.commit()` publishes the working state.

Tables are presumed to exist (the scripts are run against the base schema
created by `setup-database.py`); the modelled state space is the data and
schema directly read or written by the statements in the scripts.
-/

/-- Column type of a `user_id` column, as far as the scripts distinguish it:
`ALTER COLUMN ... TYPE VARCHAR(n)` versus `ALTER COLUMN ... TYPE TEXT`. -/
inductive ColType where
  | varchar (n : Nat)
  | text
deriving DecidableEq, Repr

/-- The slice of the `job_analysis` table the migration touches: the
`user_id` value of each row (nullable), the declared type of that column and
the names of the foreign-key constraints on the table. -/
@[ext]
structure JobAnalysisTable where
  userIds : List (Option String)
  userIdType : ColType
  fks : List String
deriving DecidableEq, Repr

/-- The slice of the `resumes` table the migration touches.  `user_id` is
`NOT NULL` in this schema, so values are plain strings.  The `kind` and
`processing_status` columns may be absent (`none`) or present with one
nullable value per row; `extraCols` records presence of the other columns
added by `ADD COLUMN IF NOT EXISTS`. -/
@[ext]
structure ResumesTable where
  userIds : List String
  userIdType : ColType
  kind : Option (List (Option String))
  kindDefault : Option String
  kindNotNull : Bool
  procStatus : Option (List (Option String))
  procStatusDefault : Option String
  procStatusNotNull : Bool
  extraCols : List String
  fks : List String
deriving DecidableEq, Repr

/-- The database state read and written by `fix_foreign_key_constraint`. -/
@[ext]
structure DBState where
  usersSyncIds : List String
  jobAnalysis : JobAnalysisTable
  resumes : ResumesTable
  indexes : List String
deriving DecidableEq, Repr

/-- Values of a nullable column whose character length exceeds the limit,
one entry per offending row (`WHERE CHAR_LENGTH(col::text) > limit`, which
is false for SQL `NULL`). -/
def oversizedVals (limit : Nat) (vals : List (Option String)) : List String :=
  (vals.filterMap id).filter (fun s => limit < s.length)

/-- Non-null values of a child column matching no value of the parent
column, one entry per orphaned row (the `LEFT JOIN ... WHERE child IS NOT
NULL AND parent IS NULL` count). -/
def orphanVals (parentIds : List String) (vals : List (Option String)) :
    List String :=
  (vals.filterMap id).filter (fun s => ¬ parentIds.contains s)

/-- Non-null `job_analysis.user_id` values whose length exceeds the limit. -/
def jaOffending (limit : Nat) (db : DBState) : List String :=
  oversizedVals limit db.jobAnalysis.userIds

/-- `COUNT(*)` of the length-check query of `run-migration.py`. -/
def jaOffendingCount (limit : Nat) (db : DBState) : Nat :=
  (jaOffending limit db).length

/-- `COALESCE(MAX(CHAR_LENGTH(user_id::text)), 0)` over the offending rows
of the length-check query. -/
def jaOffendingMaxLen (limit : Nat) (db : DBState) : Nat :=
  (jaOffending limit db).foldr (fun s m => max s.length m) 0

/-- Orphan count of the `LEFT JOIN` query of `run-migration.py`: rows of
`job_analysis` with non-null `user_id` matching no `users_sync.id`. -/
def jaOrphanCount (db : DBState) : Nat :=
  (orphanVals db.usersSyncIds db.jobAnalysis.userIds).length

/-- Values of a non-null column matching no value of the parent column. -/
def orphanPlainVals (parentIds vals : List String) : List String :=
  vals.filter (fun s => ¬ parentIds.contains s)

/-- Rows of `resumes` whose `user_id` matches no `users_sync.id`; this is
what PostgreSQL itself validates when `resumes_user_id_fkey` is added. -/
def resumesOrphanCount (db : DBState) : Nat :=
  (orphanPlainVals db.usersSyncIds db.resumes.userIds).length

/-- One event on the database connection.  `select` covers the read-only
metadata/verification queries; `lengthCheck` and `orphanCheck` are the
read-only pre-flight validation queries together with the values they
return; `write` is a schema- or data-changing statement. -/
inductive Event where
  | connect
  | select (descr : String)
  | lengthCheck (tbl col : String) (count maxLen : Nat)
  | orphanCheck (child parent : String) (count : Nat)
  | write (kind tbl detail : String)
  | commit
deriving DecidableEq, Repr

/-- Reason a run raised before commit. -/
inductive FailReport where
  | maxLength (tbl col : String) (count maxLen : Nat)
  | orphans (child : String) (count : Nat)
  | execError (descr : String)
deriving DecidableEq, Repr

/-- Result of one invocation of `fix_foreign_key_constraint`: the trace of
events on the connection, the state left committed in the database, the
boolean the function returns, and the failure report if it raised. -/
structure RunResult where
  trace : List Event
  committed : DBState
  success : Bool
  failure : Option FailReport
deriving DecidableEq, Repr

/-- `CREATE ... IF NOT EXISTS` semantics on a list of names. -/
def insertINE (n : String) (l : List String) : List String :=
  if n ∈ l then l else l ++ [n]

/-- `UPDATE ... SET c = d WHERE c IS NULL` on a column of row values. -/
def fillNulls (d : String) (l : List (Option String)) : List (Option String) :=
  l.map (fun v => some (v.getD d))

/-- One statement of the migration of `run-migration.py`, in the order the
script issues them. -/
inductive Op where
  | selectQ (descr : String)
  | dropJaFk (name : String)
  | checkMaxLenJa (limit : Nat)
  | alterJaVarchar (n : Nat)
  | checkNoOrphansJa
  | addJaFk (name : String)
  | createIndexINE (name : String)
  | dropResumesFk (name : String)
  | alterResumesText
  | addResumesFk (name : String)
  | addKindColINE
  | setKindDefault
  | updateKindNulls
  | setKindNotNull
  | addStatusColINE
  | setStatusDefault
  | updateStatusNulls
  | setStatusNotNull
  | addResumesColINE (name : String)
deriving DecidableEq, Repr

/-- Semantics of one statement: the event it logs on the connection and
either the updated working state or the error it raises.  Failure cases
mirror PostgreSQL: narrowing a type with oversized values, adding a
constraint whose name exists or whose data violates it, altering a column
that does not exist, and `SET NOT NULL` over null values all raise. -/
def applyOp (op : Op) (db : DBState) : Event × Except FailReport DBState :=
  match op with
  | .selectQ d => (.select d, .ok db)
  | .dropJaFk name =>
      (.write "drop_constraint_if_exists" "job_analysis" name,
       .ok { db with jobAnalysis := { db.jobAnalysis with
              fks := db.jobAnalysis.fks.erase name } })
  | .checkMaxLenJa limit =>
      let c := jaOffendingCount limit db
      let m := jaOffendingMaxLen limit db
      (.lengthCheck "job_analysis" "user_id" c m,
       if 0 < c then .error (.maxLength "job_analysis" "user_id" c m)
       else .ok db)
  | .alterJaVarchar n =>
      (.write "alter_column_type" "job_analysis" ("VARCHAR(" ++ toString n ++ ")"),
       if 0 < jaOffendingCount n db then
         .error (.execError "value too long for type character varying")
       else
         .ok { db with jobAnalysis := { db.jobAnalysis with
                userIdType := .varchar n } })
  | .checkNoOrphansJa =>
      let c := jaOrphanCount db
      (.orphanCheck "job_analysis" "users_sync" c,
       if 0 < c then .error (.orphans "job_analysis" c) else .ok db)
  | .addJaFk name =>
      (.write "add_constraint" "job_analysis" name,
       if name ∈ db.jobAnalysis.fks then
         .error (.execError "constraint already exists")
       else if 0 < jaOrphanCount db then
         .error (.execError "foreign key constraint violated")
       else
         .ok { db with jobAnalysis := { db.jobAnalysis with
                fks := db.jobAnalysis.fks ++ [name] } })
  | .createIndexINE name =>
      (.write "create_index_if_not_exists" "" name,
       .ok { db with indexes := insertINE name db.indexes })
  | .dropResumesFk name =>
      (.write "drop_constraint_if_exists" "resumes" name,
       .ok { db with resumes := { db.resumes with
              fks := db.resumes.fks.erase name } })
  | .alterResumesText =>
      (.write "alter_column_type" "resumes" "TEXT",
       .ok { db with resumes := { db.resumes with userIdType := .text } })
  | .addResumesFk name =>
      (.write "add_constraint" "resumes" name,
       if name ∈ db.resumes.fks then
         .error (.execError "constraint already exists")
       else if 0 < resumesOrphanCount db then
         .error (.execError "foreign key constraint violated")
       else
         .ok { db with resumes := { db.resumes with
                fks := db.resumes.fks ++ [name] } })
  | .addKindColINE =>
      (.write "add_column_if_not_exists" "resumes" "kind",
       match db.resumes.kind with
       | some _ => .ok db
       | none => .ok { db with resumes := { db.resumes with
            kind := some (db.resumes.userIds.map (fun _ => some "uploaded")),
            kindDefault := some "uploaded" } })
  | .setKindDefault =>
      (.write "set_default" "resumes" "kind",
       match db.resumes.kind with
       | none => .error (.execError "column kind does not exist")
       | some _ => .ok { db with resumes := { db.resumes with
            kindDefault := some "uploaded" } })
  | .updateKindNulls =>
      (.write "update" "resumes" "kind",
       match db.resumes.kind with
       | none => .error (.execError "column kind does not exist")
       | some l => .ok { db with resumes := { db.resumes with
            kind := some (fillNulls "uploaded" l) } })
  | .setKindNotNull =>
      (.write "set_not_null" "resumes" "kind",
       match db.resumes.kind with
       | none => .error (.execError "column kind does not exist")
       | some l =>
         if none ∈ l then .error (.execError "column kind contains null values")
         else .ok { db with resumes := { db.resumes with kindNotNull := true } })
  | .addStatusColINE =>
      (.write "add_column_if_not_exists" "resumes" "processing_status",
       match db.resumes.procStatus with
       | some _ => .ok db
       | none => .ok { db with resumes := { db.resumes with
            procStatus := some (db.resumes.userIds.map (fun _ => some "completed")),
            procStatusDefault := some "completed" } })
  | .setStatusDefault =>
      (.write "set_default" "resumes" "processing_status",
       match db.resumes.procStatus with
       | none => .error (.execError "column processing_status does not exist")
       | some _ => .ok { db with resumes := { db.resumes with
            procStatusDefault := some "completed" } })
  | .updateStatusNulls =>
      (.write "update" "resumes" "processing_status",
       match db.resumes.procStatus with
       | none => .error (.execError "column processing_status does not exist")
       | some l => .ok { db with resumes := { db.resumes with
            procStatus := some (fillNulls "completed" l) } })
  | .setStatusNotNull =>
      (.write "set_not_null" "resumes" "processing_status",
       match db.resumes.procStatus with
       | none => .error (.execError "column processing_status does not exist")
       | some l =>
         if none ∈ l then
           .error (.execError "column processing_status contains null values")
         else .ok { db with resumes := { db.resumes with
                procStatusNotNull := true } })
  | .addResumesColINE name =>
      (.write "add_column_if_not_exists" "resumes" name,
       .ok { db with resumes := { db.resumes with
              extraCols := insertINE name db.resumes.extraCols } })

/-- Run a statement list on a working state: stop at the first raised
error, otherwise thread the state through, collecting the event trace. -/
def runOps : List Op → DBState → List Event × Except FailReport DBState
  | [], db => ([], .ok db)
  | op :: rest, db =>
    match applyOp op db with
    | (ev, .error f) => ([ev], .error f)
    | (ev, .ok db') =>
      let (tr, r) := runOps rest db'
      (ev :: tr, r)

/-- Steps 1-4 of the migration (run-migration.py lines 67-114): drop the
old foreign keys, length-check, narrow the type, orphan-check, re-create
the foreign key, create the index. -/
def jaOps : List Op :=
  [ .dropJaFk "fk_job_analysis_user_id",
    .dropJaFk "job_analysis_user_id_fkey",
    .checkMaxLenJa 255,
    .alterJaVarchar 255,
    .checkNoOrphansJa,
    .addJaFk "job_analysis_user_id_fkey",
    .createIndexINE "idx_job_analysis_user_id" ]

/-- Step 5 (run-migration.py lines 118-125): re-create the `resumes`
foreign key — with no orphan pre-check. -/
def resumesFkOps : List Op :=
  [ .dropResumesFk "resumes_user_id_fkey",
    .alterResumesText,
    .addResumesFk "resumes_user_id_fkey",
    .createIndexINE "idx_resumes_user_id" ]

/-- Step 6, `kind` block (run-migration.py lines 129-132). -/
def kindOps : List Op :=
  [ .addKindColINE, .setKindDefault, .updateKindNulls, .setKindNotNull ]

/-- Step 6, `processing_status` block (run-migration.py lines 134-137). -/
def statusOps : List Op :=
  [ .addStatusColINE, .setStatusDefault, .updateStatusNulls, .setStatusNotNull ]

/-- Step 6, remaining `ADD COLUMN IF NOT EXISTS` statements (run-migration.py
lines 139-142). -/
def extraColOps : List Op :=
  [ .addResumesColINE "processing_error",
    .addResumesColINE "parsed_sections",
    .addResumesColINE "extracted_at",
    .addResumesColINE "source_metadata" ]

/-- Final index statements (run-migration.py lines 143-144). -/
def tailIndexOps : List Op :=
  [ .createIndexINE "idx_resumes_kind",
    .createIndexINE "idx_resumes_processing_status" ]

/-- The statements `fix_foreign_key_constraint` issues inside its
transaction, in program order (run-migration.py lines 67-144). -/
def migrationOps : List Op :=
  jaOps ++ resumesFkOps ++ kindOps ++ statusOps ++ extraColOps ++ tailIndexOps

/-- The read-only schema-inspection queries the script runs after
connecting, before the migration statements (run-migration.py lines 34-57). -/
def preFlightSelects : List Event :=
  [ .connect,
    .select "users_sync.id column metadata",
    .select "job_analysis.user_id column metadata",
    .select "job_analysis foreign key constraints" ]

/-- The read-only verification queries the script runs after `conn.commit()`
(run-migration.py lines 154-192). -/
def verificationSelects : List Event :=
  [ .select "users_sync.id column metadata",
    .select "job_analysis.user_id column metadata",
    .select "job_analysis foreign key constraints",
    .select "orphaned job_analysis records" ]

/-- Model of `fix_foreign_key_constraint` (run-migration.py) given a live
connection: run the statements in order inside the transaction; on a raise,
roll back (the committed state stays the pre-run state) and return `False`;
otherwise commit the working state, run the verification queries and return
`True`. -/
def fix_foreign_key_constraint (db : DBState) : RunResult :=
  match runOps migrationOps db with
  | (tr, .error f) =>
      { trace := preFlightSelects ++ tr, committed := db,
        success := false, failure := some f }
  | (tr, .ok db1) =>
      { trace := preFlightSelects ++ tr ++ [.commit] ++ verificationSelects,
        committed := db1, success := true, failure := none }

/-- Entry point of `run-migration.py`: when `DATABASE_URL` is absent from
the environment the function returns `False` before connecting. -/
def fix_foreign_key_constraint_entry (dbUrl : Option String) (db : DBState) :
    RunResult :=
  match dbUrl with
  | none => { trace := [], committed := db, success := false, failure := none }
  | some _ => fix_foreign_key_constraint db

/-- `run_migration` (run-migration.py line 207) delegates unchanged. -/
def run_migration (dbUrl : Option String) (db : DBState) : RunResult :=
  fix_foreign_key_constraint_entry dbUrl db

/-- Database state touched by `run_cv_migration`: the set of table names in
the public schema (the script only reads table existence, row counts,
indexes and constraints). -/
structure CvDB where
  tables : List String
deriving DecidableEq, Repr

/-- Result of one `run_cv_migration` invocation. -/
structure CvResult where
  trace : List Event
  committed : CvDB
  success : Bool
deriving DecidableEq, Repr

/-- Tables required before the CV migration runs (run-cv-migration.py
line 91). -/
def cvRequiredTables : List String := ["users_sync", "job_analysis", "resumes"]

/-- Model of `run_cv_migration` (run-cv-migration.py).  `migrationSql` is
the effect of executing the SQL file contents inside the transaction; an
error there triggers `conn.rollback()`. -/
def run_cv_migration (dbUrl : Option String) (migFileExists : Bool)
    (migrationSql : CvDB → Except String CvDB) (db : CvDB) : CvResult :=
  match dbUrl with
  | none => { trace := [], committed := db, success := false }
  | some _ =>
    if migFileExists then
      let checks : List Event :=
        [ .connect, .select "existing cv tables", .select "prerequisite tables" ]
      if cvRequiredTables.all (fun t => db.tables.contains t) then
        match migrationSql db with
        | .error _ =>
            { trace := checks ++ [.write "raw_sql" "" "003_cv_generation_tables.sql"],
              committed := db, success := false }
        | .ok db1 =>
            { trace := checks ++ [.write "raw_sql" "" "003_cv_generation_tables.sql",
                .commit, .select "created cv tables", .select "cv table row counts",
                .select "cv table indexes", .select "cv foreign key constraints"],
              committed := db1, success := true }
      else
        { trace := checks, committed := db, success := false }
    else
      { trace := [], committed := db, success := false }

/-- Database state touched by `run_onboarding_migration`: the columns and
indexes of `users_sync`. -/
structure OnboardDB where
  usersSyncCols : List String
  usersSyncIndexes : List String
deriving DecidableEq, Repr

/-- Result of one `run_onboarding_migration` invocation. -/
structure OnboardResult where
  trace : List Event
  committed : OnboardDB
  success : Bool
deriving DecidableEq, Repr

/-- Model of `run_onboarding_migration` (run-onboarding-migration.py). -/
def run_onboarding_migration (dbUrl : Option String) (sqlFileExists : Bool)
    (migrationSql : OnboardDB → Except String OnboardDB) (db : OnboardDB) :
    OnboardResult :=
  match dbUrl with
  | none => { trace := [], committed := db, success := false }
  | some _ =>
    if sqlFileExists then
      match migrationSql db with
      | .error _ =>
          { trace := [.connect, .write "raw_sql" "users_sync" "add-onboarding-status.sql"],
            committed := db, success := false }
      | .ok db1 =>
          let base : List Event :=
            [ .connect, .write "raw_sql" "users_sync" "add-onboarding-status.sql",
              .commit, .select "onboarding_completed_at column metadata" ]
          if db1.usersSyncCols.contains "onboarding_completed_at" then
            { trace := base ++ [.select "idx_users_sync_onboarding index",
                .select "user onboarding statistics"],
              committed := db1, success := true }
          else
            { trace := base, committed := db1, success := false }
    else
      { trace := [], committed := db, success := false }

/-- Database state touched by `run_health_check_migration`: tables, indexes,
comments, triggers, and whether the `update_updated_at_column` function
(created by `setup-database.py`) exists — the trigger creation fails
without it. -/
structure HealthDB where
  tables : List String
  indexes : List String
  comments : List String
  triggers : List String
  hasUpdateFn : Bool
deriving DecidableEq, Repr

/-- Result of one `run_health_check_migration` invocation. -/
structure HealthResult where
  trace : List Event
  committed : HealthDB
  success : Bool
deriving DecidableEq, Repr

/-- `DROP TRIGGER IF EXISTS t; CREATE TRIGGER t` semantics on a trigger
name list. -/
def resetTrigger (t : String) (l : List String) : List String :=
  l.erase t ++ [t]

/-- Model of `run_health_check_migration`
(scripts/migrations/run_health_check_migration.py). -/
def run_health_check_migration (dbUrl : Option String) (db : HealthDB) :
    HealthResult :=
  match dbUrl with
  | none => { trace := [], committed := db, success := false }
  | some _ =>
    let preCommit : List Event :=
      [ .connect,
        .write "create_table_if_not_exists" "resume_health_checks" "",
        .write "create_index_if_not_exists" "" "idx_resume_health_checks_email",
        .write "create_index_if_not_exists" "" "idx_resume_health_checks_file_hash",
        .write "create_index_if_not_exists" "" "idx_resume_health_checks_status",
        .write "create_index_if_not_exists" "" "idx_resume_health_checks_created_at",
        .write "comment" "resume_health_checks" "table",
        .write "comment" "resume_health_checks" "file_hash",
        .write "comment" "resume_health_checks" "analysis_result",
        .write "comment" "resume_health_checks" "status",
        .write "create_trigger" "resume_health_checks"
          "update_resume_health_checks_updated_at" ]
    if db.hasUpdateFn then
      let db1 : HealthDB :=
        { tables := insertINE "resume_health_checks" db.tables,
          indexes := (((insertINE "idx_resume_health_checks_email" db.indexes
            |> insertINE "idx_resume_health_checks_file_hash")
            |> insertINE "idx_resume_health_checks_status")
            |> insertINE "idx_resume_health_checks_created_at"),
          comments := (((insertINE "resume_health_checks.table" db.comments
            |> insertINE "resume_health_checks.file_hash")
            |> insertINE "resume_health_checks.analysis_result")
            |> insertINE "resume_health_checks.status"),
          triggers := resetTrigger "update_resume_health_checks_updated_at" db.triggers,
          hasUpdateFn := db.hasUpdateFn }
      { trace := preCommit ++ [.commit, .select "resume_health_checks columns"],
        committed := db1, success := true }
    else
      { trace := preCommit, committed := db, success := false }

/-- Sequential `IF NOT EXISTS` insertion of several names. -/
def insertAllINE (names : List String) (l : List String) : List String :=
  names.foldl (fun acc n => insertINE n acc) l

/-- Sequential `List.erase` of several names. -/
def eraseAll (names : List String) (l : List String) : List String :=
  names.foldl (fun acc n => acc.erase n) l

/-- Sequential `DROP TRIGGER IF EXISTS; CREATE TRIGGER` for several
trigger names. -/
def resetTriggers (names : List String) (l : List String) : List String :=
  names.foldl (fun acc t => resetTrigger t acc) l

/-- Composite effect of the `kind` column block shared by
`setup-database.py` (lines 84-87) and `run-migration.py` (lines 129-132):
`ADD COLUMN IF NOT EXISTS kind VARCHAR(32) DEFAULT 'uploaded'`, `SET
DEFAULT 'uploaded'`, `UPDATE ... WHERE kind IS NULL`, `SET NOT NULL`. -/
def ensureKind (r : ResumesTable) : ResumesTable :=
  { r with
    kind := some (fillNulls "uploaded"
      (r.kind.getD (r.userIds.map (fun _ => some "uploaded")))),
    kindDefault := some "uploaded",
    kindNotNull := true }

/-- Composite effect of the `processing_status` column block
(setup-database.py lines 89-92, run-migration.py lines 134-137). -/
def ensureStatus (r : ResumesTable) : ResumesTable :=
  { r with
    procStatus := some (fillNulls "completed"
      (r.procStatus.getD (r.userIds.map (fun _ => some "completed")))),
    procStatusDefault := some "completed",
    procStatusNotNull := true }

/-- The four `ADD COLUMN IF NOT EXISTS` statements for the remaining
master-resume columns, in program order. -/
def masterResumeCols : List String :=
  ["processing_error", "parsed_sections", "extracted_at", "source_metadata"]

/-- Composite effect of adding the remaining master-resume columns. -/
def ensureExtraCols (r : ResumesTable) : ResumesTable :=
  { r with extraCols := insertAllINE masterResumeCols r.extraCols }

/-- The whole `resumes` column block shared by `setup-database.py` and
`run-migration.py`: `kind`, `processing_status`, then the remaining
columns. -/
def ensureResumeCols (r : ResumesTable) : ResumesTable :=
  ensureExtraCols (ensureStatus (ensureKind r))

/-- The `resumes` table as freshly created by the `CREATE TABLE IF NOT
EXISTS resumes` statement of setup-database.py (lines 51-72): no rows,
`user_id VARCHAR(255) REFERENCES users_sync(id)` (PostgreSQL names the
generated constraint `resumes_user_id_fkey`), `kind` and
`processing_status` present and `NOT NULL` with their defaults, and all
master-resume columns present. -/
def freshResumes : ResumesTable :=
  { userIds := [], userIdType := .varchar 255,
    kind := some [], kindDefault := some "uploaded", kindNotNull := true,
    procStatus := some [], procStatusDefault := some "completed",
    procStatusNotNull := true,
    extraCols := masterResumeCols,
    fks := ["resumes_user_id_fkey"] }

/-- Database state touched by `setup_database`. -/
@[ext]
structure SetupDB where
  extensions : List String
  tables : List String
  resumes : Option ResumesTable
  indexes : List String
  hasUpdateFn : Bool
  triggers : List String
deriving DecidableEq, Repr

/-- Result of one `setup_database` invocation: the state left in the
database (each statement autocommitted) and whether the function finished
without raising. -/
structure SetupResult where
  committed : SetupDB
  success : Bool
deriving DecidableEq, Repr

/-- Index names created for `users_sync` and the first three `resumes`
indexes (setup-database.py lines 45-47, 76-78). -/
def setupEarlyIndexes : List String :=
  [ "idx_users_sync_clerk_user_id", "idx_users_sync_email",
    "idx_users_sync_deleted_at",
    "idx_resumes_user_id", "idx_resumes_is_primary", "idx_resumes_deleted_at" ]

/-- Index names created after the `resumes` block (setup-database.py lines
123-125, 149-151, 173-174, 196-197, 215-217). -/
def setupLateIndexes : List String :=
  [ "idx_job_analysis_user_id", "idx_job_analysis_keywords",
    "idx_job_analysis_required_skills",
    "idx_optimized_resumes_user_id", "idx_optimized_resumes_original_resume_id",
    "idx_optimized_resumes_job_analysis_id",
    "idx_user_profiles_clerk_user_id", "idx_user_profiles_user_id",
    "idx_job_applications_user_id", "idx_job_applications_resume_id",
    "idx_clerk_webhook_events_event_type", "idx_clerk_webhook_events_user_id",
    "idx_clerk_webhook_events_created_at" ]

/-- Tables created after `resumes` (setup-database.py lines 101-211). -/
def setupLateTables : List String :=
  [ "job_analysis", "optimized_resumes", "user_profiles",
    "job_applications", "clerk_webhook_events" ]

/-- Trigger names re-created at the end of setup-database.py (lines
233-246), in loop order. -/
def setupTriggerNames : List String :=
  [ "update_users_sync_updated_at", "update_resumes_updated_at",
    "update_job_applications_updated_at", "update_job_analysis_updated_at",
    "update_optimized_resumes_updated_at", "update_user_profiles_updated_at" ]

/-- Model of `setup_database` (setup-database.py).  The one modelled
failure mode: `CREATE INDEX IF NOT EXISTS idx_resumes_kind ON resumes(kind)`
(line 79) and the matching `processing_status` index (line 80) run before
the `ADD COLUMN IF NOT EXISTS` block, so they raise when a pre-existing
`resumes` table lacks the column and the index does not exist yet; the
exception is re-raised (line 265) after the earlier autocommitted
statements have already taken effect. -/
def setup_database (s : SetupDB) : SetupResult :=
  let ext1 := insertINE "uuid-ossp" s.extensions
  let tbl1 := insertINE "users_sync" s.tables
  let r0 := s.resumes.getD freshResumes
  let idx1 := insertAllINE setupEarlyIndexes s.indexes
  if r0.kind = none ∧ "idx_resumes_kind" ∉ idx1 then
    let st1 : SetupDB :=
      { extensions := ext1, tables := insertINE "resumes" tbl1,
        resumes := some r0, indexes := idx1,
        hasUpdateFn := s.hasUpdateFn, triggers := s.triggers }
    { committed := st1, success := false }
  else
    let idx2 := insertINE "idx_resumes_kind" idx1
    if r0.procStatus = none ∧ "idx_resumes_processing_status" ∉ idx2 then
      let st2 : SetupDB :=
        { extensions := ext1, tables := insertINE "resumes" tbl1,
          resumes := some r0, indexes := idx2,
          hasUpdateFn := s.hasUpdateFn, triggers := s.triggers }
      { committed := st2, success := false }
    else
      let idx3 := insertINE "idx_resumes_processing_status" idx2
      let r1 := ensureResumeCols r0
      let st3 : SetupDB :=
        { extensions := ext1,
          tables := insertAllINE setupLateTables (insertINE "resumes" tbl1),
          resumes := some r1,
          indexes := insertAllINE setupLateIndexes idx3,
          hasUpdateFn := true,
          triggers := resetTriggers setupTriggerNames s.triggers }
      { committed := st3, success := true }

/-- Entry of `setup-database.py`: the module-level guard exits with code 1
before creating the Neon handle when `DATABASE_URL` is unset (lines 6-13);
otherwise `asyncio.run(setup_database())` runs and the exit code reflects
whether the setup raised.  The second component is the trace of statements
issued (empty when the guard fires). -/
def setup_database_main (dbUrl : Option String) (s : SetupDB) :
    Nat × List Event × SetupResult :=
  match dbUrl with
  | none => (1, [], { committed := s, success := false })
  | some _ =>
    let r := setup_database s
    ((if r.success then 0 else 1),
     [.connect, .write "setup_schema" "" "all tables, indexes, triggers"], r)

/-- An event is a schema- or data-changing statement. -/
def isWriteEv : Event → Bool
  | .write _ _ _ => true
  | _ => false

/-- An event is read-only on the database: connection setup, a `SELECT`,
or one of the read-only validation queries. -/
def isReadOnlyEv : Event → Bool
  | .connect => true
  | .select _ => true
  | .lengthCheck _ _ _ _ => true
  | .orphanCheck _ _ _ => true
  | .write _ _ _ => false
  | .commit => false

/-- The write statements of a trace, in order. -/
def writeEvents (tr : List Event) : List Event :=
  tr.filter isWriteEv

/-- The part of a trace strictly after the first `commit`; empty when no
commit happened. -/
def afterCommit : List Event → List Event
  | [] => []
  | .commit :: rest => rest
  | _ :: rest => afterCommit rest

/-- `initSeg l r` holds when `l` is an initial segment of `r`. -/
def initSeg : List Event → List Event → Bool
  | [], _ => true
  | _ :: _, [] => false
  | a :: l, b :: r => if a = b then initSeg l r else false

/-- The write event a statement logs, `none` for the read-only
statements; the event of a write statement does not depend on the
database state. -/
def opWriteEvent : Op → Option Event
  | .selectQ _ => none
  | .dropJaFk name => some (.write "drop_constraint_if_exists" "job_analysis" name)
  | .checkMaxLenJa _ => none
  | .alterJaVarchar n =>
      some (.write "alter_column_type" "job_analysis"
        ("VARCHAR(" ++ toString n ++ ")"))
  | .checkNoOrphansJa => none
  | .addJaFk name => some (.write "add_constraint" "job_analysis" name)
  | .createIndexINE name => some (.write "create_index_if_not_exists" "" name)
  | .dropResumesFk name => some (.write "drop_constraint_if_exists" "resumes" name)
  | .alterResumesText => some (.write "alter_column_type" "resumes" "TEXT")
  | .addResumesFk name => some (.write "add_constraint" "resumes" name)
  | .addKindColINE => some (.write "add_column_if_not_exists" "resumes" "kind")
  | .setKindDefault => some (.write "set_default" "resumes" "kind")
  | .updateKindNulls => some (.write "update" "resumes" "kind")
  | .setKindNotNull => some (.write "set_not_null" "resumes" "kind")
  | .addStatusColINE =>
      some (.write "add_column_if_not_exists" "resumes" "processing_status")
  | .setStatusDefault => some (.write "set_default" "resumes" "processing_status")
  | .updateStatusNulls => some (.write "update" "resumes" "processing_status")
  | .setStatusNotNull => some (.write "set_not_null" "resumes" "processing_status")
  | .addResumesColINE name => some (.write "add_column_if_not_exists" "resumes" name)

/-- The write statements of the migration plan in declared order. -/
def declaredWrites : List Event :=
  migrationOps.filterMap opWriteEvent

/-- Effect of steps 1-4 on `job_analysis` (drop both constraints, narrow
the type, re-create the constraint, create the index). -/
def jaMigrate (db : DBState) : DBState :=
  { db with
    jobAnalysis :=
      { userIds := db.jobAnalysis.userIds,
        userIdType := .varchar 255,
        fks := (db.jobAnalysis.fks.erase "fk_job_analysis_user_id").erase
                 "job_analysis_user_id_fkey" ++ ["job_analysis_user_id_fkey"] },
    indexes := insertINE "idx_job_analysis_user_id" db.indexes }

/-- Effect of step 5 on `resumes` (drop the constraint, widen the type,
re-create the constraint, create the index). -/
def resumesFkMigrate (db : DBState) : DBState :=
  { db with
    resumes := { db.resumes with
      userIdType := .text,
      fks := db.resumes.fks.erase "resumes_user_id_fkey" ++ ["resumes_user_id_fkey"] },
    indexes := insertINE "idx_resumes_user_id" db.indexes }

/-- Effect of a whole successful run of the migration on the database. -/
def applyMigration (db : DBState) : DBState :=
  let d2 := resumesFkMigrate (jaMigrate db)
  let d3 := { d2 with resumes := ensureResumeCols d2.resumes }
  { d3 with indexes :=
      insertAllINE ["idx_resumes_kind", "idx_resumes_processing_status"] d3.indexes }

/-- The events of a successful run of the migration statements, in order:
the two checks return zero counts, and every write statement is reached. -/
def okMigrationEvents : List Event :=
  [ .write "drop_constraint_if_exists" "job_analysis" "fk_job_analysis_user_id",
    .write "drop_constraint_if_exists" "job_analysis" "job_analysis_user_id_fkey",
    .lengthCheck "job_analysis" "user_id" 0 0,
    .write "alter_column_type" "job_analysis" "VARCHAR(255)",
    .orphanCheck "job_analysis" "users_sync" 0,
    .write "add_constraint" "job_analysis" "job_analysis_user_id_fkey",
    .write "create_index_if_not_exists" "" "idx_job_analysis_user_id",
    .write "drop_constraint_if_exists" "resumes" "resumes_user_id_fkey",
    .write "alter_column_type" "resumes" "TEXT",
    .write "add_constraint" "resumes" "resumes_user_id_fkey",
    .write "create_index_if_not_exists" "" "idx_resumes_user_id",
    .write "add_column_if_not_exists" "resumes" "kind",
    .write "set_default" "resumes" "kind",
    .write "update" "resumes" "kind",
    .write "set_not_null" "resumes" "kind",
    .write "add_column_if_not_exists" "resumes" "processing_status",
    .write "set_default" "resumes" "processing_status",
    .write "update" "resumes" "processing_status",
    .write "set_not_null" "resumes" "processing_status",
    .write "add_column_if_not_exists" "resumes" "processing_error",
    .write "add_column_if_not_exists" "resumes" "parsed_sections",
    .write "add_column_if_not_exists" "resumes" "extracted_at",
    .write "add_column_if_not_exists" "resumes" "source_metadata",
    .write "create_index_if_not_exists" "" "idx_resumes_kind",
    .write "create_index_if_not_exists" "" "idx_resumes_processing_status" ]

/-- The first four migration statements (the two drops, the length check,
the type change). -/
def migFirstFour : List Op :=
  [ .dropJaFk "fk_job_analysis_user_id",
    .dropJaFk "job_analysis_user_id_fkey",
    .checkMaxLenJa 255,
    .alterJaVarchar 255 ]

/-- The migration statements after the type change. -/
def migAfterAlter : List Op :=
  [ .checkNoOrphansJa,
    .addJaFk "job_analysis_user_id_fkey",
    .createIndexINE "idx_job_analysis_user_id" ] ++
  resumesFkOps ++ kindOps ++ statusOps ++ extraColOps ++ tailIndexOps

/-- The working state after the two drops, the passing length check and
the type change. -/
def jaAltered (db : DBState) : DBState :=
  { db with
    jobAnalysis :=
      { userIds := db.jobAnalysis.userIds,
        userIdType := .varchar 255,
        fks := (db.jobAnalysis.fks.erase "fk_job_analysis_user_id").erase
          "job_analysis_user_id_fkey" } }

/-- `checkBeforeStmt isCheck isStmt tr` holds when no event selected by
`isStmt` occurs in `tr` before the first event selected by `isCheck`. -/
def checkBeforeStmt (isCheck isStmt : Event → Bool) : List Event → Bool
  | [] => true
  | e :: rest =>
    if isCheck e then true
    else if isStmt e then false
    else checkBeforeStmt isCheck isStmt rest

/-- A passing length pre-check (zero offending rows). -/
def passedLengthCheck : Event → Bool
  | .lengthCheck _ _ c _ => c == 0
  | _ => false

/-- A passing orphan pre-check on `job_analysis`. -/
def passedJaOrphanCheck : Event → Bool
  | .orphanCheck child _ c => child == "job_analysis" && c == 0
  | _ => false

/-- The narrowing type change on `job_analysis.user_id`. -/
def isJaAlterStmt (e : Event) : Bool :=
  e == .write "alter_column_type" "job_analysis" "VARCHAR(255)"

/-- The `ADD CONSTRAINT` on `job_analysis`. -/
def isJaAddFkStmt (e : Event) : Bool :=
  e == .write "add_constraint" "job_analysis" "job_analysis_user_id_fkey"

/-- An event that is not an orphan check on the `resumes` table. -/
def evNotResumesOrphanCheck : Event → Bool
  | .orphanCheck child _ _ => child != "resumes"
  | _ => true

/-- An empty `job_analysis` table. -/
def emptyJaTable : JobAnalysisTable :=
  { userIds := [], userIdType := .text, fks := [] }

/-- An empty `resumes` table lacking the master-resume columns. -/
def emptyResumesTable : ResumesTable :=
  { userIds := [], userIdType := .varchar 255, kind := none, kindDefault := none,
    kindNotNull := false, procStatus := none, procStatusDefault := none,
    procStatusNotNull := false, extraCols := [], fks := [] }

/-- An empty database. -/
def emptyDB : DBState :=
  { usersSyncIds := [], jobAnalysis := emptyJaTable,
    resumes := emptyResumesTable, indexes := [] }

/-- A 256-character `user_id` value, one character over the limit. -/
def longId : String := String.mk (List.replicate 256 'a')

/-- A database whose single `job_analysis` row has an oversized `user_id`
(which is also orphaned: `users_sync` is empty). -/
def dbOversized : DBState :=
  { emptyDB with jobAnalysis := { emptyJaTable with userIds := [some longId] } }

/-- A database whose single `job_analysis` row has a short but orphaned
`user_id`. -/
def dbOrphaned : DBState :=
  { emptyDB with jobAnalysis := { emptyJaTable with userIds := [some "u1"] } }

/-- A second state with the same report data as `dbOversized` (one
oversized row of maximal length 256) but different row values. -/
def dbOversizedB : DBState :=
  { emptyDB with jobAnalysis := { emptyJaTable with
      userIds := [some (String.mk (List.replicate 256 'b')), some "short"] } }

/-- A second state with the same orphan-report data as `dbOrphaned` (one
orphaned row, no oversized row) but different row values. -/
def dbOrphanedB : DBState :=
  { emptyDB with jobAnalysis := { emptyJaTable with
      userIds := [some "v9", none] } }

/-- Whether a failure report carries a maximum observed violating value:
only the `maxLength` report does — the `orphans` report carries a table
name and a count, nothing else. -/
def reportsMaxValue : Option FailReport → Bool
  | some (.maxLength _ _ _ _) => true
  | _ => false

/-- An onboarding database with no columns and no indexes. -/
def emptyOnboardDB : OnboardDB := { usersSyncCols := [], usersSyncIndexes := [] }

/-- A migration-file effect that commits fine but never produces the
`onboarding_completed_at` column (for instance an empty or unrelated SQL
file). -/
def onboardProbe : OnboardDB → Except String OnboardDB :=
  fun db => .ok { db with usersSyncIndexes := db.usersSyncIndexes ++ ["probe_idx"] }

/-- A migration-file effect that does add the expected column. -/
def onboardAddCol : OnboardDB → Except String OnboardDB :=
  fun db => .ok { db with
    usersSyncCols := insertINE "onboarding_completed_at" db.usersSyncCols }

/-- The onboarding state after the column has been added. -/
def onboardAfter : OnboardDB :=
  { usersSyncCols := ["onboarding_completed_at"], usersSyncIndexes := [] }

/-- The first five migration statements (through the orphan check). -/
def migFirstFive : List Op := migFirstFour ++ [.checkNoOrphansJa]

/-- The migration statements after the orphan check. -/
def migAfterOrphanCheck : List Op :=
  [ .addJaFk "job_analysis_user_id_fkey",
    .createIndexINE "idx_job_analysis_user_id" ] ++
  resumesFkOps ++ kindOps ++ statusOps ++ extraColOps ++ tailIndexOps

/-- An empty setup-database state. -/
def emptySetupDB : SetupDB :=
  { extensions := [], tables := [], resumes := none, indexes := [],
    hasUpdateFn := false, triggers := [] }

/-!
The theorems below: interpreter lemmas, characterizations of the failing
and successful runs, idempotence algebra for the guarded statements, trace
lemmas, and the claims with their witnesses and counterexamples.
-/

theorem runOps_cons_ok {op : Op} {db : DBState} {ev : Event} {db' : DBState}
    (h : applyOp op db = (ev, .ok db')) (rest : List Op) :
    runOps (op :: rest) db =
      (ev :: (runOps rest db').1, (runOps rest db').2) := by
  simp [runOps, h]

theorem runOps_cons_err {op : Op} {db : DBState} {ev : Event} {f : FailReport}
    (h : applyOp op db = (ev, .error f)) (rest : List Op) :
    runOps (op :: rest) db = ([ev], .error f) := by
  simp [runOps, h]

theorem runOps_append_ok {l1 : List Op} {db : DBState} {tr : List Event}
    {db1 : DBState} (h : runOps l1 db = (tr, .ok db1)) (l2 : List Op) :
    runOps (l1 ++ l2) db = (tr ++ (runOps l2 db1).1, (runOps l2 db1).2) := by
  induction l1 generalizing db tr with
  | nil =>
    simp only [runOps, Prod.mk.injEq] at h
    obtain ⟨h1, h2⟩ := h
    cases h2
    simp [h1.symm]
  | cons op rest ih =>
    rcases hop : applyOp op db with ⟨ev, res⟩
    cases res with
    | error f =>
      rw [runOps_cons_err hop] at h
      simp at h
    | ok dmid =>
      rw [runOps_cons_ok hop] at h
      rcases hrest : runOps rest dmid with ⟨tr', r'⟩
      rw [hrest] at h
      simp only [Prod.mk.injEq] at h
      obtain ⟨h1, h2⟩ := h
      cases h2
      rw [List.cons_append, runOps_cons_ok hop, ih hrest, h1.symm]
      simp

theorem runOps_append_err {l1 : List Op} {db : DBState} {tr : List Event}
    {f : FailReport} (h : runOps l1 db = (tr, .error f)) (l2 : List Op) :
    runOps (l1 ++ l2) db = (tr, .error f) := by
  induction l1 generalizing db tr with
  | nil => simp [runOps] at h
  | cons op rest ih =>
    rcases hop : applyOp op db with ⟨ev, res⟩
    cases res with
    | error f' =>
      rw [runOps_cons_err hop] at h
      simp only [Prod.mk.injEq, Except.error.injEq] at h
      obtain ⟨h1, h2⟩ := h
      cases h2
      rw [List.cons_append, runOps_cons_err hop, h1]
    | ok dmid =>
      rw [runOps_cons_ok hop] at h
      rcases hrest : runOps rest dmid with ⟨tr', r'⟩
      rw [hrest] at h
      simp only [Prod.mk.injEq] at h
      obtain ⟨h1, h2⟩ := h
      cases h2
      rw [List.cons_append, runOps_cons_ok hop, ih hrest, h1.symm]

theorem varcharDetail255 : ("VARCHAR(" ++ toString 255 ++ ")") = "VARCHAR(255)" :=
  rfl

/-- When some row of `job_analysis` has an oversized `user_id`, the run
stops at the length check: the trace ends with the check, the error is the
`maxLength` report, and nothing is committed. -/
theorem fix_lenFail {db : DBState} (h : 0 < jaOffendingCount 255 db) :
    fix_foreign_key_constraint db =
      { trace := preFlightSelects ++
          [.write "drop_constraint_if_exists" "job_analysis" "fk_job_analysis_user_id",
           .write "drop_constraint_if_exists" "job_analysis" "job_analysis_user_id_fkey",
           .lengthCheck "job_analysis" "user_id" (jaOffendingCount 255 db)
             (jaOffendingMaxLen 255 db)],
        committed := db, success := false,
        failure := some (.maxLength "job_analysis" "user_id"
          (jaOffendingCount 255 db) (jaOffendingMaxLen 255 db)) } := by
  have h' : 0 < (oversizedVals 255 db.jobAnalysis.userIds).length := h
  simp [fix_foreign_key_constraint, migrationOps, jaOps, runOps, applyOp,
    jaOffendingCount, jaOffending, jaOffendingMaxLen, h']

/-- When no `user_id` is oversized but some row of `job_analysis` is
orphaned, the run proceeds past the type change and stops at the orphan
check: the trace ends with the check, the error is the `orphans` report
with the exact count, and nothing is committed. -/
theorem fix_orphanFail {db : DBState} (h0 : jaOffendingCount 255 db = 0)
    (h : 0 < jaOrphanCount db) :
    fix_foreign_key_constraint db =
      { trace := preFlightSelects ++
          [.write "drop_constraint_if_exists" "job_analysis" "fk_job_analysis_user_id",
           .write "drop_constraint_if_exists" "job_analysis" "job_analysis_user_id_fkey",
           .lengthCheck "job_analysis" "user_id" 0 0,
           .write "alter_column_type" "job_analysis" "VARCHAR(255)",
           .orphanCheck "job_analysis" "users_sync" (jaOrphanCount db)],
        committed := db, success := false,
        failure := some (.orphans "job_analysis" (jaOrphanCount db)) } := by
  have hnil : oversizedVals 255 db.jobAnalysis.userIds = [] :=
    List.length_eq_zero.mp h0
  have h' : 0 < (orphanVals db.usersSyncIds db.jobAnalysis.userIds).length := h
  simp [fix_foreign_key_constraint, migrationOps, jaOps, runOps, applyOp,
    jaOffendingCount, jaOffending, jaOffendingMaxLen, jaOrphanCount,
    hnil, h', varcharDetail255]

/-- Characterization of a run in which both validations pass and neither
`ADD CONSTRAINT` collides with a left-over constraint name: every
statement executes in order and the working state is `applyMigration db`. -/
theorem runOps_migration_ok {db : DBState}
    (h0 : jaOffendingCount 255 db = 0)
    (h1 : jaOrphanCount db = 0)
    (h2 : "job_analysis_user_id_fkey" ∉
      (db.jobAnalysis.fks.erase "fk_job_analysis_user_id").erase
        "job_analysis_user_id_fkey")
    (h3 : resumesOrphanCount db = 0)
    (h4 : "resumes_user_id_fkey" ∉ db.resumes.fks.erase "resumes_user_id_fkey") :
    runOps migrationOps db = (okMigrationEvents, .ok (applyMigration db)) := by
  have hnil : oversizedVals 255 db.jobAnalysis.userIds = [] :=
    List.length_eq_zero.mp h0
  have horph : orphanVals db.usersSyncIds db.jobAnalysis.userIds = [] :=
    List.length_eq_zero.mp h1
  have hres : orphanPlainVals db.usersSyncIds db.resumes.userIds = [] :=
    List.length_eq_zero.mp h3
  rcases hk : db.resumes.kind with _ | kvals <;>
    rcases hs : db.resumes.procStatus with _ | svals <;>
    simp [migrationOps, jaOps, resumesFkOps, kindOps, statusOps, extraColOps,
      tailIndexOps, runOps, applyOp, jaOffendingCount, jaOffending,
      jaOffendingMaxLen, jaOrphanCount, resumesOrphanCount,
      hnil, horph, hres, h2, h4, hk, hs, varcharDetail255,
      okMigrationEvents, applyMigration, jaMigrate, resumesFkMigrate,
      ensureResumeCols, ensureKind, ensureStatus, ensureExtraCols,
      insertAllINE, fillNulls, masterResumeCols]

/-- The read-only verification phase and the commit marker appended on the
success branch of `fix_foreign_key_constraint`. -/
theorem fix_ok {db : DBState}
    (h0 : jaOffendingCount 255 db = 0)
    (h1 : jaOrphanCount db = 0)
    (h2 : "job_analysis_user_id_fkey" ∉
      (db.jobAnalysis.fks.erase "fk_job_analysis_user_id").erase
        "job_analysis_user_id_fkey")
    (h3 : resumesOrphanCount db = 0)
    (h4 : "resumes_user_id_fkey" ∉ db.resumes.fks.erase "resumes_user_id_fkey") :
    fix_foreign_key_constraint db =
      { trace := preFlightSelects ++ okMigrationEvents ++ [.commit] ++
          verificationSelects,
        committed := applyMigration db, success := true, failure := none } := by
  simp [fix_foreign_key_constraint, runOps_migration_ok h0 h1 h2 h3 h4]

/-- A left-over constraint named `job_analysis_user_id_fkey` that survives
the two `DROP CONSTRAINT IF EXISTS` statements (possible in the embedding
only when the name occurs twice) makes the `ADD CONSTRAINT` raise. -/
theorem fix_dupJaFkFail {db : DBState}
    (h0 : jaOffendingCount 255 db = 0)
    (h1 : jaOrphanCount db = 0)
    (h2 : "job_analysis_user_id_fkey" ∈
      (db.jobAnalysis.fks.erase "fk_job_analysis_user_id").erase
        "job_analysis_user_id_fkey") :
    (fix_foreign_key_constraint db).success = false := by
  have hnil : oversizedVals 255 db.jobAnalysis.userIds = [] :=
    List.length_eq_zero.mp h0
  have horph : orphanVals db.usersSyncIds db.jobAnalysis.userIds = [] :=
    List.length_eq_zero.mp h1
  simp [fix_foreign_key_constraint, migrationOps, jaOps, runOps, applyOp,
    jaOffendingCount, jaOffending, jaOffendingMaxLen, jaOrphanCount,
    hnil, horph, h2]

/-- The `resumes` `ADD CONSTRAINT` raises when the table has an orphaned
`user_id` or the constraint name survives the preceding drop. -/
theorem fix_resumesAddFail {db : DBState}
    (h0 : jaOffendingCount 255 db = 0)
    (h1 : jaOrphanCount db = 0)
    (h2 : "job_analysis_user_id_fkey" ∉
      (db.jobAnalysis.fks.erase "fk_job_analysis_user_id").erase
        "job_analysis_user_id_fkey")
    (hbad : 0 < resumesOrphanCount db ∨
      "resumes_user_id_fkey" ∈ db.resumes.fks.erase "resumes_user_id_fkey") :
    (fix_foreign_key_constraint db).success = false := by
  have hnil : oversizedVals 255 db.jobAnalysis.userIds = [] :=
    List.length_eq_zero.mp h0
  have horph : orphanVals db.usersSyncIds db.jobAnalysis.userIds = [] :=
    List.length_eq_zero.mp h1
  by_cases hmem : "resumes_user_id_fkey" ∈ db.resumes.fks.erase "resumes_user_id_fkey"
  · simp [fix_foreign_key_constraint, migrationOps, jaOps, resumesFkOps, runOps,
      applyOp, jaOffendingCount, jaOffending, jaOffendingMaxLen, jaOrphanCount,
      hnil, horph, h2, hmem]
  · rcases hbad with hres | hres
    · have hres' : 0 < (orphanPlainVals db.usersSyncIds db.resumes.userIds).length := hres
      simp [fix_foreign_key_constraint, migrationOps, jaOps, resumesFkOps, runOps,
        applyOp, jaOffendingCount, jaOffending, jaOffendingMaxLen, jaOrphanCount,
        resumesOrphanCount, hnil, horph, h2, hmem, hres']
    · exact absurd hres hmem

/-- A run of `fix_foreign_key_constraint` returns `True` exactly when both
pre-flight validations pass, `resumes` has no orphaned rows, and neither
re-created constraint name survives its preceding drop. -/
theorem fix_success_iff {db : DBState} :
    (fix_foreign_key_constraint db).success = true ↔
      jaOffendingCount 255 db = 0 ∧ jaOrphanCount db = 0 ∧
      "job_analysis_user_id_fkey" ∉
        (db.jobAnalysis.fks.erase "fk_job_analysis_user_id").erase
          "job_analysis_user_id_fkey" ∧
      resumesOrphanCount db = 0 ∧
      "resumes_user_id_fkey" ∉ db.resumes.fks.erase "resumes_user_id_fkey" := by
  constructor
  · intro hsucc
    have c0 : jaOffendingCount 255 db = 0 := by
      by_contra hne
      rw [fix_lenFail (Nat.pos_of_ne_zero hne)] at hsucc
      simp at hsucc
    have c1 : jaOrphanCount db = 0 := by
      by_contra hne
      rw [fix_orphanFail c0 (Nat.pos_of_ne_zero hne)] at hsucc
      simp at hsucc
    have c2 : "job_analysis_user_id_fkey" ∉
        (db.jobAnalysis.fks.erase "fk_job_analysis_user_id").erase
          "job_analysis_user_id_fkey" := by
      by_contra hmem
      rw [fix_dupJaFkFail c0 c1 hmem] at hsucc
      simp at hsucc
    have c3 : resumesOrphanCount db = 0 := by
      by_contra hne
      rw [fix_resumesAddFail c0 c1 c2 (Or.inl (Nat.pos_of_ne_zero hne))] at hsucc
      simp at hsucc
    have c4 : "resumes_user_id_fkey" ∉ db.resumes.fks.erase "resumes_user_id_fkey" := by
      by_contra hmem
      rw [fix_resumesAddFail c0 c1 c2 (Or.inr hmem)] at hsucc
      simp at hsucc
    exact ⟨c0, c1, c2, c3, c4⟩
  · rintro ⟨h0, h1, h2, h3, h4⟩
    simp [fix_ok h0 h1 h2 h3 h4]

theorem insertAllINE_nil (l : List String) : insertAllINE [] l = l := rfl

theorem insertAllINE_cons (n : String) (rest : List String) (l : List String) :
    insertAllINE (n :: rest) l = insertAllINE rest (insertINE n l) := rfl

theorem insertINE_of_mem {n : String} {l : List String} (h : n ∈ l) :
    insertINE n l = l := by
  simp [insertINE, h]

theorem mem_insertINE_self (n : String) (l : List String) : n ∈ insertINE n l := by
  by_cases h : n ∈ l <;> simp [insertINE, h]

theorem mem_insertINE_of_mem {m : String} (n : String) {l : List String}
    (h : m ∈ l) : m ∈ insertINE n l := by
  by_cases hn : n ∈ l <;> simp [insertINE, hn, h]

theorem mem_insertAllINE_of_mem {m : String} (names : List String)
    {l : List String} (h : m ∈ l) : m ∈ insertAllINE names l := by
  induction names generalizing l with
  | nil => exact h
  | cons n rest ih =>
    rw [insertAllINE_cons]
    exact ih (mem_insertINE_of_mem n h)

theorem mem_insertAllINE (names : List String) (l : List String) :
    ∀ n ∈ names, n ∈ insertAllINE names l := by
  induction names generalizing l with
  | nil => intro n hn; cases hn
  | cons m rest ih =>
    intro n hn
    rw [insertAllINE_cons]
    rcases List.mem_cons.mp hn with rfl | hr
    · exact mem_insertAllINE_of_mem rest (mem_insertINE_self n l)
    · exact ih (insertINE m l) n hr

theorem insertAllINE_of_forall_mem {names l : List String}
    (h : ∀ n ∈ names, n ∈ l) : insertAllINE names l = l := by
  induction names with
  | nil => rfl
  | cons n rest ih =>
    rw [insertAllINE_cons, insertINE_of_mem (h n (List.mem_cons_self n rest))]
    exact ih (fun m hm => h m (List.mem_cons_of_mem n hm))

theorem insertAllINE_idem (names l : List String) :
    insertAllINE names (insertAllINE names l) = insertAllINE names l :=
  insertAllINE_of_forall_mem (mem_insertAllINE names l)

theorem fillNulls_fillNulls (d : String) (l : List (Option String)) :
    fillNulls d (fillNulls d l) = fillNulls d l := by
  simp [fillNulls, List.map_map, Function.comp]

/-- The shared `resumes` column block is a no-op when re-run. -/
theorem ensureResumeCols_idem (r : ResumesTable) :
    ensureResumeCols (ensureResumeCols r) = ensureResumeCols r := by
  simp [ensureResumeCols, ensureKind, ensureStatus, ensureExtraCols,
    fillNulls_fillNulls, insertAllINE_idem]

theorem erase_append_singleton_self {l : List String} {a : String} (h : a ∉ l) :
    (l ++ [a]).erase a = l := by
  rw [List.erase_append_right _ h]
  simp

theorem erase_append_singleton_of_ne {l : List String} {a b : String}
    (hb : b ∉ l) (hne : b ≠ a) : (l ++ [a]).erase b = l ++ [a] := by
  refine List.erase_of_not_mem ?h
  simp [hb, hne]

/-- A successful migration leaves a state on which running the same
statements again reproduces the same state: constraint names were dropped
before being re-added, and every other statement is guarded or
re-applicable. -/
theorem applyMigration_idem {db : DBState}
    (hja : db.jobAnalysis.fks.Nodup) (hres : db.resumes.fks.Nodup) :
    applyMigration (applyMigration db) = applyMigration db := by
  have h1e : "fk_job_analysis_user_id" ∉
      (db.jobAnalysis.fks.erase "fk_job_analysis_user_id").erase
        "job_analysis_user_id_fkey" := by
    intro hmem
    exact hja.not_mem_erase (List.erase_subset _ _ hmem)
  have h2e : "job_analysis_user_id_fkey" ∉
      (db.jobAnalysis.fks.erase "fk_job_analysis_user_id").erase
        "job_analysis_user_id_fkey" :=
    (hja.erase _).not_mem_erase
  have h3e : "resumes_user_id_fkey" ∉
      db.resumes.fks.erase "resumes_user_id_fkey" := hres.not_mem_erase
  have e1 := erase_append_singleton_of_ne h1e
    (show "fk_job_analysis_user_id" ≠ "job_analysis_user_id_fkey" by decide)
  have e2 := erase_append_singleton_self h2e
  have e3 := erase_append_singleton_self h3e
  have hidx : ∀ l : List String,
      insertAllINE ["idx_resumes_kind", "idx_resumes_processing_status"]
        (insertINE "idx_resumes_user_id" (insertINE "idx_job_analysis_user_id" l)) =
      insertAllINE ["idx_job_analysis_user_id", "idx_resumes_user_id",
        "idx_resumes_kind", "idx_resumes_processing_status"] l := fun _ => rfl
  simp [applyMigration, jaMigrate, resumesFkMigrate, ensureResumeCols,
    ensureKind, ensureStatus, ensureExtraCols, fillNulls_fillNulls,
    insertAllINE_idem, hidx, e1, e2, e3]

theorem eraseAll_nil (l : List String) : eraseAll [] l = l := rfl

theorem eraseAll_cons (n : String) (rest l : List String) :
    eraseAll (n :: rest) l = eraseAll rest (l.erase n) := rfl

theorem resetTriggers_nil (l : List String) : resetTriggers [] l = l := rfl

theorem resetTriggers_cons (t : String) (rest l : List String) :
    resetTriggers (t :: rest) l = resetTriggers rest (resetTrigger t l) := rfl

theorem eraseAll_append_singleton {names : List String} {t : String}
    (h : t ∉ names) (X : List String) :
    eraseAll names (X ++ [t]) = eraseAll names X ++ [t] := by
  induction names generalizing X with
  | nil => rfl
  | cons n rest ih =>
    have hne : t ≠ n := fun hc => h (hc ▸ List.mem_cons_self n rest)
    have hr : t ∉ rest := fun hc => h (List.mem_cons_of_mem n hc)
    rw [eraseAll_cons, eraseAll_cons]
    have hx : (X ++ [t]).erase n = X.erase n ++ [t] := by
      by_cases hmem : n ∈ X
      · exact List.erase_append_left _ hmem
      · rw [List.erase_append_right _ hmem, List.erase_of_not_mem hmem,
          List.erase_cons_tail (by simp [hne])]
        simp
    rw [hx, ih hr]

theorem resetTriggers_eq {names : List String} (hn : names.Nodup) :
    ∀ l : List String, resetTriggers names l = eraseAll names l ++ names := by
  induction names with
  | nil => intro l; simp [resetTriggers_nil, eraseAll_nil]
  | cons t rest ih =>
    intro l
    have hn' : rest.Nodup := hn.of_cons
    have ht : t ∉ rest := (List.nodup_cons.mp hn).1
    rw [resetTriggers_cons, resetTrigger, ih hn', eraseAll_cons,
      eraseAll_append_singleton ht]
    simp

theorem not_mem_eraseAll {x : String} (names : List String) {X : List String}
    (h : x ∉ X) : x ∉ eraseAll names X := by
  induction names generalizing X with
  | nil => exact h
  | cons n rest ih =>
    rw [eraseAll_cons]
    exact ih (fun hc => h (List.erase_subset _ _ hc))

theorem not_mem_eraseAll_self {names l : List String} (hl : l.Nodup) :
    ∀ n ∈ names, n ∉ eraseAll names l := by
  induction names generalizing l with
  | nil => intro n hn; cases hn
  | cons t rest ih =>
    intro n hn
    rw [eraseAll_cons]
    rcases List.mem_cons.mp hn with rfl | hr
    · exact not_mem_eraseAll rest hl.not_mem_erase
    · exact ih (hl.erase _) n hr

theorem eraseAll_append_self {names : List String} (hn : names.Nodup) :
    ∀ base : List String, (∀ n ∈ names, n ∉ base) →
      eraseAll names (base ++ names) = base := by
  induction names with
  | nil => intro base _; simp [eraseAll_nil]
  | cons t rest ih =>
    intro base hb
    have hr : ∀ n ∈ rest, n ∉ base := fun n hn => hb n (List.mem_cons_of_mem t hn)
    have htb : t ∉ base := hb t (List.mem_cons_self t rest)
    rw [eraseAll_cons]
    have hx : (base ++ t :: rest).erase t = base ++ rest := by
      rw [List.erase_append_right _ htb, List.erase_cons_head]
    rw [hx, ih hn.of_cons base hr]

/-- Re-creating the same triggers with `DROP TRIGGER IF EXISTS; CREATE
TRIGGER` is a no-op the second time around. -/
theorem resetTriggers_idem {names l : List String} (hn : names.Nodup)
    (hl : l.Nodup) :
    resetTriggers names (resetTriggers names l) = resetTriggers names l := by
  rw [resetTriggers_eq hn l, resetTriggers_eq hn,
    eraseAll_append_self hn _ (not_mem_eraseAll_self hl)]

/-- A run of `setup_database` on a state whose `resumes` table already has
the `kind` and `processing_status` columns succeeds and applies the whole
guarded batch. -/
theorem setup_database_of_cols_present {X : SetupDB} {r : ResumesTable}
    (hres : X.resumes = some r) (hk : r.kind ≠ none) (hp : r.procStatus ≠ none) :
    setup_database X =
      ⟨{ extensions := insertINE "uuid-ossp" X.extensions,
         tables := insertAllINE setupLateTables
           (insertINE "resumes" (insertINE "users_sync" X.tables)),
         resumes := some (ensureResumeCols r),
         indexes := insertAllINE setupLateIndexes
           (insertINE "idx_resumes_processing_status"
             (insertINE "idx_resumes_kind" (insertAllINE setupEarlyIndexes X.indexes))),
         hasUpdateFn := true,
         triggers := resetTriggers setupTriggerNames X.triggers }, true⟩ := by
  simp only [setup_database, hres, Option.getD_some, hk, hp, false_and, if_false]

/-- Re-running `setup_database` on the state a successful run produced
leaves that state unchanged (helper for the idempotence theorem). -/
theorem setup_second_committed {s : SetupDB} (htr : s.triggers.Nodup) :
    (setup_database
      { extensions := insertINE "uuid-ossp" s.extensions,
        tables := insertAllINE setupLateTables
          (insertINE "resumes" (insertINE "users_sync" s.tables)),
        resumes := some (ensureResumeCols (s.resumes.getD freshResumes)),
        indexes := insertAllINE setupLateIndexes
          (insertINE "idx_resumes_processing_status"
            (insertINE "idx_resumes_kind" (insertAllINE setupEarlyIndexes s.indexes))),
        hasUpdateFn := true,
        triggers := resetTriggers setupTriggerNames s.triggers }).committed =
      { extensions := insertINE "uuid-ossp" s.extensions,
        tables := insertAllINE setupLateTables
          (insertINE "resumes" (insertINE "users_sync" s.tables)),
        resumes := some (ensureResumeCols (s.resumes.getD freshResumes)),
        indexes := insertAllINE setupLateIndexes
          (insertINE "idx_resumes_processing_status"
            (insertINE "idx_resumes_kind" (insertAllINE setupEarlyIndexes s.indexes))),
        hasUpdateFn := true,
        triggers := resetTriggers setupTriggerNames s.triggers } := by
  rw [setup_database_of_cols_present rfl
    (show (ensureResumeCols (s.resumes.getD freshResumes)).kind ≠ none by
      simp [ensureResumeCols, ensureExtraCols, ensureStatus, ensureKind])
    (show (ensureResumeCols (s.resumes.getD freshResumes)).procStatus ≠ none by
      simp [ensureResumeCols, ensureExtraCols, ensureStatus, ensureKind])]
  have hus : "users_sync" ∈ insertAllINE setupLateTables
      (insertINE "resumes" (insertINE "users_sync" s.tables)) :=
    mem_insertAllINE_of_mem _ (mem_insertINE_of_mem _ (mem_insertINE_self _ _))
  have hrs : "resumes" ∈ insertAllINE setupLateTables
      (insertINE "resumes" (insertINE "users_sync" s.tables)) :=
    mem_insertAllINE_of_mem _ (mem_insertINE_self _ _)
  have hlateT : ∀ n ∈ setupLateTables, n ∈ insertAllINE setupLateTables
      (insertINE "resumes" (insertINE "users_sync" s.tables)) :=
    mem_insertAllINE _ _
  have hearly : ∀ n ∈ setupEarlyIndexes, n ∈ insertAllINE setupLateIndexes
      (insertINE "idx_resumes_processing_status"
        (insertINE "idx_resumes_kind" (insertAllINE setupEarlyIndexes s.indexes))) :=
    fun n hn => mem_insertAllINE_of_mem _ (mem_insertINE_of_mem _
      (mem_insertINE_of_mem _ (mem_insertAllINE _ _ n hn)))
  have hki : "idx_resumes_kind" ∈ insertAllINE setupLateIndexes
      (insertINE "idx_resumes_processing_status"
        (insertINE "idx_resumes_kind" (insertAllINE setupEarlyIndexes s.indexes))) :=
    mem_insertAllINE_of_mem _ (mem_insertINE_of_mem _ (mem_insertINE_self _ _))
  have hsi : "idx_resumes_processing_status" ∈ insertAllINE setupLateIndexes
      (insertINE "idx_resumes_processing_status"
        (insertINE "idx_resumes_kind" (insertAllINE setupEarlyIndexes s.indexes))) :=
    mem_insertAllINE_of_mem _ (mem_insertINE_self _ _)
  have hlateI : ∀ n ∈ setupLateIndexes, n ∈ insertAllINE setupLateIndexes
      (insertINE "idx_resumes_processing_status"
        (insertINE "idx_resumes_kind" (insertAllINE setupEarlyIndexes s.indexes))) :=
    mem_insertAllINE _ _
  have hext : "uuid-ossp" ∈ insertINE "uuid-ossp" s.extensions :=
    mem_insertINE_self _ _
  rw [insertINE_of_mem hext, insertINE_of_mem hus, insertINE_of_mem hrs,
    insertAllINE_of_forall_mem hlateT, ensureResumeCols_idem,
    insertAllINE_of_forall_mem hearly, insertINE_of_mem hki,
    insertINE_of_mem hsi, insertAllINE_of_forall_mem hlateI,
    resetTriggers_idem (show setupTriggerNames.Nodup by decide) htr]

/-- Running `setup_database` again on the state a successful run left
behind succeeds and changes nothing: every statement is existence-guarded
or re-applies identically. -/
theorem setup_idem {s : SetupDB} (htr : s.triggers.Nodup)
    (hsucc : (setup_database s).success = true) :
    (setup_database (setup_database s).committed).success = true ∧
    (setup_database (setup_database s).committed).committed =
      (setup_database s).committed := by
  by_cases c1 : ((s.resumes.getD freshResumes).kind = none ∧
      "idx_resumes_kind" ∉ insertAllINE setupEarlyIndexes s.indexes)
  · exfalso
    simp [setup_database, c1] at hsucc
  by_cases c2 : ((s.resumes.getD freshResumes).procStatus = none ∧
      "idx_resumes_processing_status" ∉
        insertINE "idx_resumes_kind" (insertAllINE setupEarlyIndexes s.indexes))
  · exfalso
    simp [setup_database, c1, c2] at hsucc
  have hrun : setup_database s =
      ⟨{ extensions := insertINE "uuid-ossp" s.extensions,
         tables := insertAllINE setupLateTables
           (insertINE "resumes" (insertINE "users_sync" s.tables)),
         resumes := some (ensureResumeCols (s.resumes.getD freshResumes)),
         indexes := insertAllINE setupLateIndexes
           (insertINE "idx_resumes_processing_status"
             (insertINE "idx_resumes_kind" (insertAllINE setupEarlyIndexes s.indexes))),
         hasUpdateFn := true,
         triggers := resetTriggers setupTriggerNames s.triggers }, true⟩ := by
    simp [setup_database, c1, c2]
  rw [hrun]
  refine ⟨?_, setup_second_committed htr⟩
  rw [setup_database_of_cols_present rfl
    (show (ensureResumeCols (s.resumes.getD freshResumes)).kind ≠ none by
      simp [ensureResumeCols, ensureExtraCols, ensureStatus, ensureKind])
    (show (ensureResumeCols (s.resumes.getD freshResumes)).procStatus ≠ none by
      simp [ensureResumeCols, ensureExtraCols, ensureStatus, ensureKind])]

/-- Re-running `fix_foreign_key_constraint` on the state a successful run
committed succeeds again and commits the identical state. -/
theorem fix_idem {db : DBState} (hja : db.jobAnalysis.fks.Nodup)
    (hres : db.resumes.fks.Nodup)
    (hsucc : (fix_foreign_key_constraint db).success = true) :
    (fix_foreign_key_constraint
      ((fix_foreign_key_constraint db).committed)).success = true ∧
    (fix_foreign_key_constraint
      ((fix_foreign_key_constraint db).committed)).committed =
      (fix_foreign_key_constraint db).committed := by
  obtain ⟨h0, h1, h2, h3, h4⟩ := fix_success_iff.mp hsucc
  have hcom : (fix_foreign_key_constraint db).committed = applyMigration db := by
    rw [fix_ok h0 h1 h2 h3 h4]
  rw [hcom]
  have h0' : jaOffendingCount 255 (applyMigration db) = 0 := h0
  have h1' : jaOrphanCount (applyMigration db) = 0 := h1
  have h3' : resumesOrphanCount (applyMigration db) = 0 := h3
  have hfks : (applyMigration db).jobAnalysis.fks =
      (db.jobAnalysis.fks.erase "fk_job_analysis_user_id").erase
        "job_analysis_user_id_fkey" ++ ["job_analysis_user_id_fkey"] := rfl
  have hrfks : (applyMigration db).resumes.fks =
      db.resumes.fks.erase "resumes_user_id_fkey" ++ ["resumes_user_id_fkey"] := rfl
  have hn1 : "fk_job_analysis_user_id" ∉
      (db.jobAnalysis.fks.erase "fk_job_analysis_user_id").erase
        "job_analysis_user_id_fkey" := fun hmem =>
    hja.not_mem_erase (List.erase_subset _ _ hmem)
  have hn2 : "job_analysis_user_id_fkey" ∉
      (db.jobAnalysis.fks.erase "fk_job_analysis_user_id").erase
        "job_analysis_user_id_fkey" := (hja.erase _).not_mem_erase
  have h2' : "job_analysis_user_id_fkey" ∉
      ((applyMigration db).jobAnalysis.fks.erase "fk_job_analysis_user_id").erase
        "job_analysis_user_id_fkey" := by
    rw [hfks, erase_append_singleton_of_ne hn1 (by decide),
      erase_append_singleton_self hn2]
    exact hn2
  have h4' : "resumes_user_id_fkey" ∉
      (applyMigration db).resumes.fks.erase "resumes_user_id_fkey" := by
    rw [hrfks, erase_append_singleton_self hres.not_mem_erase]
    exact hres.not_mem_erase
  constructor
  · exact fix_success_iff.mpr ⟨h0', h1', h2', h3', h4'⟩
  · rw [fix_ok h0' h1' h2' h3' h4']
    exact applyMigration_idem hja hres

theorem opWriteEvent_isWrite {op : Op} {ev : Event} (h : opWriteEvent op = some ev) :
    isWriteEv ev = true := by
  cases op <;> simp [opWriteEvent] at h
  all_goals subst h
  all_goals rfl

theorem applyOp_fst_of_opWriteEvent {op : Op} (db : DBState) {ev : Event}
    (h : opWriteEvent op = some ev) : (applyOp op db).1 = ev := by
  cases op <;> simp_all [opWriteEvent, applyOp]

theorem applyOp_fst_not_write {op : Op} (db : DBState)
    (h : opWriteEvent op = none) : isWriteEv (applyOp op db).1 = false := by
  cases op <;> simp_all [opWriteEvent, applyOp, isWriteEv]

/-- Every event logged by the interpreter satisfies a predicate that every
statement's event satisfies. -/
theorem runOps_all (p : Event → Bool)
    (hp : ∀ (op : Op) (db : DBState), p (applyOp op db).1 = true) :
    ∀ (ops : List Op) (db : DBState), ((runOps ops db).1).all p = true := by
  intro ops
  induction ops with
  | nil => intro db; rfl
  | cons op rest ih =>
    intro db
    rcases hop : applyOp op db with ⟨ev, res⟩
    have hev : p ev = true := by
      have := hp op db
      rw [hop] at this
      exact this
    cases res with
    | error f =>
      rw [runOps_cons_err hop]
      simp [hev]
    | ok db' =>
      rw [runOps_cons_ok hop]
      simp [hev]
      have := ih db'
      exact List.all_eq_true.mp this

theorem applyOp_fst_ne_commit (op : Op) (db : DBState) :
    ((applyOp op db).1 != Event.commit) = true := by
  cases op <;> simp [applyOp]

/-- No statement of the migration is the transaction commit. -/
theorem runOps_no_commit (ops : List Op) (db : DBState) :
    ∀ e ∈ (runOps ops db).1, e ≠ .commit := by
  intro e he
  have := runOps_all (fun ev => ev != Event.commit) applyOp_fst_ne_commit ops db
  have hme := List.all_eq_true.mp this e he
  simpa using hme

theorem afterCommit_cons_of_ne {a : Event} (h : a ≠ .commit) (l : List Event) :
    afterCommit (a :: l) = afterCommit l := by
  cases a <;> first | rfl | exact absurd rfl h

theorem afterCommit_append_of_no_commit {l : List Event}
    (h : ∀ e ∈ l, e ≠ .commit) (r : List Event) :
    afterCommit (l ++ r) = afterCommit r := by
  induction l with
  | nil => rfl
  | cons a t ih =>
    rw [List.cons_append, afterCommit_cons_of_ne (h a (List.mem_cons_self a t))]
    exact ih (fun e he => h e (List.mem_cons_of_mem a he))

theorem afterCommit_nil_of_no_commit {l : List Event}
    (h : ∀ e ∈ l, e ≠ .commit) : afterCommit l = [] := by
  induction l with
  | nil => rfl
  | cons a t ih =>
    rw [afterCommit_cons_of_ne (h a (List.mem_cons_self a t))]
    exact ih (fun e he => h e (List.mem_cons_of_mem a he))

/-- The write statements a run actually issues are an initial segment of
the write statements of the plan, in declared order. -/
theorem writes_initSeg (ops : List Op) (db : DBState) :
    initSeg (writeEvents (runOps ops db).1) (ops.filterMap opWriteEvent) = true := by
  induction ops generalizing db with
  | nil => rfl
  | cons op rest ih =>
    rcases hop : applyOp op db with ⟨ev, res⟩
    rcases hw : opWriteEvent op with _ | wev
    · have hnw : isWriteEv ev = false := by
        have := applyOp_fst_not_write db hw
        rw [hop] at this
        exact this
      cases res with
      | error f =>
        rw [runOps_cons_err hop]
        simp [writeEvents, List.filter, hnw, hw, initSeg]
      | ok db' =>
        rw [runOps_cons_ok hop]
        simp only [writeEvents, List.filterMap_cons, hw, List.filter_cons, hnw,
          Bool.false_eq_true, if_false]
        exact ih db'
    · have hev : ev = wev := by
        have := applyOp_fst_of_opWriteEvent db hw
        rw [hop] at this
        exact this
      subst hev
      have hwv : isWriteEv ev = true := opWriteEvent_isWrite hw
      cases res with
      | error f =>
        rw [runOps_cons_err hop]
        simp [writeEvents, List.filter, hwv, hw, initSeg]
      | ok db' =>
        rw [runOps_cons_ok hop]
        simp only [writeEvents, List.filterMap_cons, hw, List.filter_cons, hwv,
          if_true, initSeg, if_pos rfl]
        exact ih db'

theorem migrationOps_split : migrationOps = migFirstFour ++ migAfterAlter := rfl

/-- When the length check passes, the trace starts with the connection
phase, the two drops, the passing check, and the executed type change. -/
theorem fix_trace_lenOk {db : DBState} (h0 : jaOffendingCount 255 db = 0) :
    ∃ rest, (fix_foreign_key_constraint db).trace =
      preFlightSelects ++
        [.write "drop_constraint_if_exists" "job_analysis" "fk_job_analysis_user_id",
         .write "drop_constraint_if_exists" "job_analysis" "job_analysis_user_id_fkey",
         .lengthCheck "job_analysis" "user_id" 0 0,
         .write "alter_column_type" "job_analysis" "VARCHAR(255)"] ++ rest := by
  have hnil : oversizedVals 255 db.jobAnalysis.userIds = [] :=
    List.length_eq_zero.mp h0
  have hfirst : runOps migFirstFour db =
      ([.write "drop_constraint_if_exists" "job_analysis" "fk_job_analysis_user_id",
        .write "drop_constraint_if_exists" "job_analysis" "job_analysis_user_id_fkey",
        .lengthCheck "job_analysis" "user_id" 0 0,
        .write "alter_column_type" "job_analysis" "VARCHAR(255)"],
       .ok (jaAltered db)) := by
    simp [migFirstFour, runOps, applyOp, jaAltered, jaOffendingCount, jaOffending,
      jaOffendingMaxLen, hnil, varcharDetail255]
  rcases h5 : runOps migAfterAlter (jaAltered db) with ⟨tr5, res5⟩
  have hall : runOps migrationOps db =
      ([.write "drop_constraint_if_exists" "job_analysis" "fk_job_analysis_user_id",
        .write "drop_constraint_if_exists" "job_analysis" "job_analysis_user_id_fkey",
        .lengthCheck "job_analysis" "user_id" 0 0,
        .write "alter_column_type" "job_analysis" "VARCHAR(255)"] ++ tr5, res5) := by
    rw [migrationOps_split, runOps_append_ok hfirst, h5]
  cases res5 with
  | error f =>
    refine ⟨tr5, ?_⟩
    simp [fix_foreign_key_constraint, hall]
  | ok dbf =>
    refine ⟨tr5 ++ [.commit] ++ verificationSelects, ?_⟩
    simp [fix_foreign_key_constraint, hall]

/-- No statement of any run ever performs an orphan check for `resumes`:
the only orphan pre-check in the script targets `job_analysis`. -/
theorem fix_no_resumes_orphan_check (db : DBState) :
    ((fix_foreign_key_constraint db).trace).all evNotResumesOrphanCheck = true := by
  have hops : ∀ (op : Op) (d : DBState),
      evNotResumesOrphanCheck (applyOp op d).1 = true := by
    intro op d
    cases op <;> simp [applyOp, evNotResumesOrphanCheck]
  have hrun := runOps_all evNotResumesOrphanCheck hops migrationOps db
  rcases hr : runOps migrationOps db with ⟨tr, res⟩
  rw [hr] at hrun
  cases res with
  | error f =>
    simp [fix_foreign_key_constraint, hr, List.all_append, preFlightSelects,
      evNotResumesOrphanCheck, hrun]
  | ok dbf =>
    simp [fix_foreign_key_constraint, hr, List.all_append, preFlightSelects,
      verificationSelects, evNotResumesOrphanCheck, hrun]

/-- The length-check count is positive exactly when some row's `user_id`
exceeds the limit. -/
theorem oversized_pos_iff {db : DBState} :
    0 < jaOffendingCount 255 db ↔
      ∃ v, some v ∈ db.jobAnalysis.userIds ∧ 255 < v.length := by
  rw [jaOffendingCount, List.length_pos_iff_exists_mem]
  simp only [jaOffending, oversizedVals, List.mem_filter, List.mem_filterMap,
    id_eq, decide_eq_true_eq]
  constructor
  · rintro ⟨x, ⟨⟨y, hy, rfl⟩, hlen⟩⟩
    exact ⟨x, hy, hlen⟩
  · rintro ⟨v, hv, hlen⟩
    exact ⟨v, ⟨⟨some v, hv, rfl⟩, hlen⟩⟩

/-- The length-check count is zero exactly when every row's `user_id` fits. -/
theorem offendingCount_eq_zero_iff {db : DBState} :
    jaOffendingCount 255 db = 0 ↔
      ∀ v, some v ∈ db.jobAnalysis.userIds → v.length ≤ 255 := by
  rw [jaOffendingCount, List.length_eq_zero, jaOffending, oversizedVals,
    List.filter_eq_nil_iff]
  constructor
  · intro h v hv
    have := h v (List.mem_filterMap.mpr ⟨some v, hv, rfl⟩)
    simpa [Nat.not_lt] using this
  · intro h x hx
    obtain ⟨y, hy, hxy⟩ := List.mem_filterMap.mp hx
    cases y with
    | none => cases hxy
    | some v =>
      cases hxy
      simpa [Nat.not_lt] using h x hy

/-- C1: for every database state in which some existing row of
`job_analysis` has `length(user_id) > 255`, the `ALTER COLUMN ... TYPE
VARCHAR(255)` statement is never executed and the run aborts; for every
state in which all rows have length at most 255, the statement is
executed. -/
theorem claim_C1 (db : DBState) :
    ((∃ v, some v ∈ db.jobAnalysis.userIds ∧ 255 < v.length) →
      Event.write "alter_column_type" "job_analysis" "VARCHAR(255)" ∉
        (fix_foreign_key_constraint db).trace ∧
      (fix_foreign_key_constraint db).success = false) ∧
    ((∀ v, some v ∈ db.jobAnalysis.userIds → v.length ≤ 255) →
      Event.write "alter_column_type" "job_analysis" "VARCHAR(255)" ∈
        (fix_foreign_key_constraint db).trace) := by
  constructor
  · intro hex
    have hpos : 0 < jaOffendingCount 255 db := oversized_pos_iff.mpr hex
    rw [fix_lenFail hpos]
    refine ⟨?_, rfl⟩
    simp [preFlightSelects]
  · intro hall
    have h0 : jaOffendingCount 255 db = 0 := offendingCount_eq_zero_iff.mpr hall
    obtain ⟨rest, htr⟩ := fix_trace_lenOk h0
    rw [htr]
    simp

set_option maxRecDepth 8192 in
/-- Witness for C1 at a state with one oversized row and at the empty
state. -/
theorem claim_C1_witness :
    (Event.write "alter_column_type" "job_analysis" "VARCHAR(255)" ∉
        (fix_foreign_key_constraint dbOversized).trace ∧
      (fix_foreign_key_constraint dbOversized).success = false) ∧
    Event.write "alter_column_type" "job_analysis" "VARCHAR(255)" ∈
      (fix_foreign_key_constraint emptyDB).trace :=
  ⟨(claim_C1 dbOversized).1 ⟨longId, by decide, by decide⟩,
   (claim_C1 emptyDB).2 (fun v hv => by simp [emptyDB, emptyJaTable] at hv)⟩

set_option maxRecDepth 8192 in
/-- Counterexample to C2 as stated: in a state whose single row is both
oversized and orphaned, the `ADD CONSTRAINT` is indeed never executed and
the run aborts, but the abort reports the length violation, not the count
of orphaned rows — the orphan check is never even reached. -/
theorem claim_C2_counterexample :
    0 < jaOrphanCount dbOversized ∧
    (fix_foreign_key_constraint dbOversized).success = false ∧
    (fix_foreign_key_constraint dbOversized).failure =
      some (.maxLength "job_analysis" "user_id" 1 256) ∧
    Event.orphanCheck "job_analysis" "users_sync" 1 ∉
      (fix_foreign_key_constraint dbOversized).trace := by
  decide

/-- C2 (amended): for every state with an orphaned `job_analysis` row, the
`ADD CONSTRAINT` never executes and the run aborts; it reports the exact
orphan count provided the length precondition did not already abort the
run first. -/
theorem claim_C2 (db : DBState) (h : 0 < jaOrphanCount db) :
    Event.write "add_constraint" "job_analysis" "job_analysis_user_id_fkey" ∉
      (fix_foreign_key_constraint db).trace ∧
    (fix_foreign_key_constraint db).success = false ∧
    (jaOffendingCount 255 db = 0 →
      (fix_foreign_key_constraint db).failure =
        some (.orphans "job_analysis" (jaOrphanCount db))) := by
  by_cases h0 : jaOffendingCount 255 db = 0
  · rw [fix_orphanFail h0 h]
    refine ⟨?_, rfl, fun _ => rfl⟩
    simp [preFlightSelects]
  · rw [fix_lenFail (Nat.pos_of_ne_zero h0)]
    refine ⟨?_, rfl, fun hc => absurd hc h0⟩
    simp [preFlightSelects]

/-- Witness for C2 at a state with one short orphaned row. -/
theorem claim_C2_witness :
    Event.write "add_constraint" "job_analysis" "job_analysis_user_id_fkey" ∉
      (fix_foreign_key_constraint dbOrphaned).trace ∧
    (fix_foreign_key_constraint dbOrphaned).success = false ∧
    (jaOffendingCount 255 dbOrphaned = 0 →
      (fix_foreign_key_constraint dbOrphaned).failure =
        some (.orphans "job_analysis" (jaOrphanCount dbOrphaned))) :=
  claim_C2 dbOrphaned (by decide)

/-- Counterexample to C8 as stated: a NoOrphans-rule failure (a
validation-rule failure of the same function, run-migration.py lines
92-104) reports the offending row count but no maximum observed violating
value — the `orphans` report carries a table name and a count only. -/
theorem claim_C8_counterexample :
    0 < jaOrphanCount dbOrphaned ∧
    (fix_foreign_key_constraint dbOrphaned).success = false ∧
    (fix_foreign_key_constraint dbOrphaned).failure =
      some (.orphans "job_analysis" 1) ∧
    reportsMaxValue (fix_foreign_key_constraint dbOrphaned).failure = false := by
  decide

/-- C8 (amended): every validation-rule failure reports the offending row
count — the MaxLength failure also the maximum observed violating length,
the NoOrphans failure the count only — and the report is a function of
those numbers alone: states with equal numbers produce the identical
report, however many rows offend, so the output is bounded and never the
full list of offending rows. -/
theorem claim_C8 (db : DBState) :
    (0 < jaOffendingCount 255 db →
      (fix_foreign_key_constraint db).failure =
        some (.maxLength "job_analysis" "user_id" (jaOffendingCount 255 db)
          (jaOffendingMaxLen 255 db)) ∧
      ∀ db' : DBState, jaOffendingCount 255 db' = jaOffendingCount 255 db →
        jaOffendingMaxLen 255 db' = jaOffendingMaxLen 255 db →
        (fix_foreign_key_constraint db').failure =
          (fix_foreign_key_constraint db).failure) ∧
    (jaOffendingCount 255 db = 0 → 0 < jaOrphanCount db →
      (fix_foreign_key_constraint db).failure =
        some (.orphans "job_analysis" (jaOrphanCount db)) ∧
      ∀ db' : DBState, jaOffendingCount 255 db' = 0 →
        jaOrphanCount db' = jaOrphanCount db →
        (fix_foreign_key_constraint db').failure =
          (fix_foreign_key_constraint db).failure) := by
  constructor
  · intro h
    constructor
    · rw [fix_lenFail h]
    · intro db' he hm
      have h' : 0 < jaOffendingCount 255 db' := he ▸ h
      rw [fix_lenFail h', fix_lenFail h, he, hm]
  · intro h0 h1
    constructor
    · rw [fix_orphanFail h0 h1]
    · intro db' h0' ho
      have h1' : 0 < jaOrphanCount db' := ho ▸ h1
      rw [fix_orphanFail h0' h1', fix_orphanFail h0 h1, ho]

set_option maxRecDepth 8192 in
/-- Witness for C8 (amended): the MaxLength report at `dbOversized` with
boundedness against `dbOversizedB` (same count 1 and maximum 256,
different rows), and the NoOrphans report at `dbOrphaned` with
boundedness against `dbOrphanedB` (same count 1, different rows). -/
theorem claim_C8_witness :
    ((fix_foreign_key_constraint dbOversized).failure =
      some (.maxLength "job_analysis" "user_id" (jaOffendingCount 255 dbOversized)
        (jaOffendingMaxLen 255 dbOversized))) ∧
    ((fix_foreign_key_constraint dbOversizedB).failure =
      (fix_foreign_key_constraint dbOversized).failure) ∧
    ((fix_foreign_key_constraint dbOrphaned).failure =
      some (.orphans "job_analysis" (jaOrphanCount dbOrphaned))) ∧
    (fix_foreign_key_constraint dbOrphanedB).failure =
      (fix_foreign_key_constraint dbOrphaned).failure :=
  ⟨((claim_C8 dbOversized).1 (by decide)).1,
   ((claim_C8 dbOversized).1 (by decide)).2 dbOversizedB (by decide) (by decide),
   ((claim_C8 dbOrphaned).2 (by decide) (by decide)).1,
   ((claim_C8 dbOrphaned).2 (by decide) (by decide)).2 dbOrphanedB
     (by decide) (by decide)⟩

/-- C3: whenever a run fails before commit — which is the only way these
runs fail — the whole transaction is rolled back: the committed state
equals the pre-run state and no commit was ever issued, for
`fix_foreign_key_constraint` and for `run_cv_migration` under every plan
(SQL-file effect). -/
theorem claim_C3 :
    (∀ db : DBState, (fix_foreign_key_constraint db).success = false →
      (fix_foreign_key_constraint db).committed = db ∧
      Event.commit ∉ (fix_foreign_key_constraint db).trace) ∧
    (∀ (url : Option String) (fe : Bool) (sql : CvDB → Except String CvDB)
      (db : CvDB), (run_cv_migration url fe sql db).success = false →
      (run_cv_migration url fe sql db).committed = db ∧
      Event.commit ∉ (run_cv_migration url fe sql db).trace) := by
  constructor
  · intro db hfail
    rcases hr : runOps migrationOps db with ⟨tr, res⟩
    cases res with
    | error f =>
      refine ⟨?_, ?_⟩
      · simp [fix_foreign_key_constraint, hr]
      · have hnc := runOps_no_commit migrationOps db
        rw [hr] at hnc
        simp only [fix_foreign_key_constraint, hr, List.mem_append]
        rintro (hpre | htr)
        · simp [preFlightSelects] at hpre
        · exact hnc _ htr rfl
    | ok dbf =>
      exfalso
      simp [fix_foreign_key_constraint, hr] at hfail
  · intro url fe sql db hfail
    cases url with
    | none => exact ⟨rfl, by simp [run_cv_migration]⟩
    | some u =>
      by_cases hfe : fe
      · rcases hsql : sql db with f | db1
        · constructor
          · simp only [run_cv_migration, hfe, if_true, hsql]
            split <;> rfl
          · simp only [run_cv_migration, hfe, if_true, hsql]
            split <;> simp
        · by_cases hpre : (cvRequiredTables.all fun t => db.tables.contains t) = true
          · exfalso
            simp only [run_cv_migration, hfe, if_true, hsql] at hfail
            split at hfail
            · simp at hfail
            · rename_i hnp
              exact hnp (by simpa using hpre)
          · constructor
            · simp only [run_cv_migration, hfe, if_true, hsql]
              split
              · rename_i hp
                exact absurd (by simpa using hp) (by simpa using hpre)
              · rfl
            · simp only [run_cv_migration, hfe, if_true, hsql]
              split
              · rename_i hp
                exact absurd (by simpa using hp) (by simpa using hpre)
              · simp
      · simp [run_cv_migration, hfe]

/-- Witness for C3: an aborting migration run and an aborting CV run leave
their databases untouched with no commit on the wire. -/
theorem claim_C3_witness :
    ((fix_foreign_key_constraint dbOrphaned).committed = dbOrphaned ∧
      Event.commit ∉ (fix_foreign_key_constraint dbOrphaned).trace) ∧
    ((run_cv_migration (some "postgres://h/db") true
        (fun _ => .error "syntax error") { tables := cvRequiredTables }).committed =
      { tables := cvRequiredTables } ∧
      Event.commit ∉ (run_cv_migration (some "postgres://h/db") true
        (fun _ => .error "syntax error") { tables := cvRequiredTables }).trace) :=
  ⟨claim_C3.1 dbOrphaned (by decide),
   claim_C3.2 (some "postgres://h/db") true (fun _ => .error "syntax error")
     { tables := cvRequiredTables } (by decide)⟩

/-- Counterexample to C4 as stated: an onboarding run whose commit
succeeds but whose post-commit verification does not find the expected
column returns `False` — the verification failure flips the overall
result away from success (run-onboarding-migration.py line 80) — even
though the committed changes persist (nothing is rolled back). -/
theorem claim_C4_counterexample :
    Event.commit ∈ (run_onboarding_migration (some "postgres://h/db") true
      onboardProbe emptyOnboardDB).trace ∧
    (run_onboarding_migration (some "postgres://h/db") true onboardProbe
      emptyOnboardDB).success = false ∧
    (run_onboarding_migration (some "postgres://h/db") true onboardProbe
      emptyOnboardDB).committed ≠ emptyOnboardDB := by
  decide

/-- C4 (amended): after the commit of an onboarding run nothing is ever
rolled back — the committed state is exactly what the migration SQL
produced — but the overall result is success exactly when the expected
column is observed; only the index verification failure is reported as a
warning without affecting the result. -/
theorem claim_C4 (url : String) (sql : OnboardDB → Except String OnboardDB)
    (db db1 : OnboardDB) (h : sql db = .ok db1) :
    (run_onboarding_migration (some url) true sql db).committed = db1 ∧
    ((run_onboarding_migration (some url) true sql db).success = true ↔
      db1.usersSyncCols.contains "onboarding_completed_at" = true) := by
  by_cases hc : "onboarding_completed_at" ∈ db1.usersSyncCols <;>
    simp [run_onboarding_migration, h, hc]

/-- Witness for C4 (amended) with a plan that adds the column. -/
theorem claim_C4_witness :
    (run_onboarding_migration (some "postgres://h/db") true onboardAddCol
      emptyOnboardDB).committed = onboardAfter ∧
    ((run_onboarding_migration (some "postgres://h/db") true onboardAddCol
      emptyOnboardDB).success = true ↔
      onboardAfter.usersSyncCols.contains "onboarding_completed_at" = true) :=
  claim_C4 "postgres://h/db" onboardAddCol emptyOnboardDB onboardAfter rfl

theorem migrationOps_split5 : migrationOps = migFirstFive ++ migAfterOrphanCheck :=
  rfl

/-- When both pre-flight validations pass, the trace starts with the
connection phase, the two drops, the passing length check, the type
change, and the passing orphan check. -/
theorem fix_trace_orphanOk {db : DBState} (h0 : jaOffendingCount 255 db = 0)
    (h1 : jaOrphanCount db = 0) :
    ∃ rest, (fix_foreign_key_constraint db).trace =
      preFlightSelects ++
        [.write "drop_constraint_if_exists" "job_analysis" "fk_job_analysis_user_id",
         .write "drop_constraint_if_exists" "job_analysis" "job_analysis_user_id_fkey",
         .lengthCheck "job_analysis" "user_id" 0 0,
         .write "alter_column_type" "job_analysis" "VARCHAR(255)",
         .orphanCheck "job_analysis" "users_sync" 0] ++ rest := by
  have hnil : oversizedVals 255 db.jobAnalysis.userIds = [] :=
    List.length_eq_zero.mp h0
  have horph : orphanVals db.usersSyncIds db.jobAnalysis.userIds = [] :=
    List.length_eq_zero.mp h1
  have hfirst : runOps migFirstFive db =
      ([.write "drop_constraint_if_exists" "job_analysis" "fk_job_analysis_user_id",
        .write "drop_constraint_if_exists" "job_analysis" "job_analysis_user_id_fkey",
        .lengthCheck "job_analysis" "user_id" 0 0,
        .write "alter_column_type" "job_analysis" "VARCHAR(255)",
        .orphanCheck "job_analysis" "users_sync" 0],
       .ok (jaAltered db)) := by
    simp [migFirstFive, migFirstFour, runOps, applyOp, jaAltered,
      jaOffendingCount, jaOffending, jaOffendingMaxLen, jaOrphanCount,
      hnil, horph, varcharDetail255]
  rcases h5 : runOps migAfterOrphanCheck (jaAltered db) with ⟨tr5, res5⟩
  have hall : runOps migrationOps db =
      ([.write "drop_constraint_if_exists" "job_analysis" "fk_job_analysis_user_id",
        .write "drop_constraint_if_exists" "job_analysis" "job_analysis_user_id_fkey",
        .lengthCheck "job_analysis" "user_id" 0 0,
        .write "alter_column_type" "job_analysis" "VARCHAR(255)",
        .orphanCheck "job_analysis" "users_sync" 0] ++ tr5, res5) := by
    rw [migrationOps_split5, runOps_append_ok hfirst, h5]
  cases res5 with
  | error f =>
    refine ⟨tr5, ?_⟩
    simp [fix_foreign_key_constraint, hall]
  | ok dbf =>
    refine ⟨tr5 ++ [.commit] ++ verificationSelects, ?_⟩
    simp [fix_foreign_key_constraint, hall]

/-- Counterexample to C5 as stated: a successful run executes the
constraint-adding statement `ADD CONSTRAINT resumes_user_id_fkey` while
its trace contains no orphan validation for `resumes` at all
(run-migration.py lines 118-125 have no pre-check). -/
theorem claim_C5_counterexample :
    Event.write "add_constraint" "resumes" "resumes_user_id_fkey" ∈
      (fix_foreign_key_constraint emptyDB).trace ∧
    ((fix_foreign_key_constraint emptyDB).trace).all evNotResumesOrphanCheck =
      true := by
  decide

/-- C5 (amended): the narrowing type change on `job_analysis.user_id` and
the `job_analysis` `ADD CONSTRAINT` never execute before their respective
validations have passed, but the `resumes` `ADD CONSTRAINT` has no
orphan pre-check anywhere: no run ever performs an orphan validation for
`resumes`. -/
theorem claim_C5 (db : DBState) :
    checkBeforeStmt passedLengthCheck isJaAlterStmt
      (fix_foreign_key_constraint db).trace = true ∧
    checkBeforeStmt passedJaOrphanCheck isJaAddFkStmt
      (fix_foreign_key_constraint db).trace = true ∧
    ((fix_foreign_key_constraint db).trace).all evNotResumesOrphanCheck = true := by
  refine ⟨?_, ?_, fix_no_resumes_orphan_check db⟩
  · by_cases h0 : jaOffendingCount 255 db = 0
    · obtain ⟨rest, htr⟩ := fix_trace_lenOk h0
      rw [htr]
      simp [checkBeforeStmt, preFlightSelects, passedLengthCheck, isJaAlterStmt]
    · rw [fix_lenFail (Nat.pos_of_ne_zero h0)]
      simp [checkBeforeStmt, preFlightSelects, passedLengthCheck, isJaAlterStmt,
        ite_self]
  · by_cases h0 : jaOffendingCount 255 db = 0
    · by_cases h1 : jaOrphanCount db = 0
      · obtain ⟨rest, htr⟩ := fix_trace_orphanOk h0 h1
        rw [htr]
        simp [checkBeforeStmt, preFlightSelects, passedJaOrphanCheck, isJaAddFkStmt]
      · rw [fix_orphanFail h0 (Nat.pos_of_ne_zero h1)]
        simp [checkBeforeStmt, preFlightSelects, passedJaOrphanCheck, isJaAddFkStmt,
          ite_self]
    · rw [fix_lenFail (Nat.pos_of_ne_zero h0)]
      simp [checkBeforeStmt, preFlightSelects, passedJaOrphanCheck, isJaAddFkStmt,
        ite_self]

/-- C6: the write statements of every run form an initial segment of the
declared statement order, and a failing precondition aborts the run at
the check itself — the trace ends with the failing check, so no statement
of that step nor of any later step executes. -/
theorem claim_C6 (db : DBState) :
    initSeg (writeEvents (fix_foreign_key_constraint db).trace)
      declaredWrites = true ∧
    (0 < jaOffendingCount 255 db →
      (fix_foreign_key_constraint db).trace = preFlightSelects ++
        [.write "drop_constraint_if_exists" "job_analysis" "fk_job_analysis_user_id",
         .write "drop_constraint_if_exists" "job_analysis" "job_analysis_user_id_fkey",
         .lengthCheck "job_analysis" "user_id" (jaOffendingCount 255 db)
           (jaOffendingMaxLen 255 db)]) ∧
    (jaOffendingCount 255 db = 0 → 0 < jaOrphanCount db →
      (fix_foreign_key_constraint db).trace = preFlightSelects ++
        [.write "drop_constraint_if_exists" "job_analysis" "fk_job_analysis_user_id",
         .write "drop_constraint_if_exists" "job_analysis" "job_analysis_user_id_fkey",
         .lengthCheck "job_analysis" "user_id" 0 0,
         .write "alter_column_type" "job_analysis" "VARCHAR(255)",
         .orphanCheck "job_analysis" "users_sync" (jaOrphanCount db)]) := by
  refine ⟨?_, ?_, ?_⟩
  · have hseg := writes_initSeg migrationOps db
    rcases hr : runOps migrationOps db with ⟨tr, res⟩
    rw [hr] at hseg
    cases res with
    | error f =>
      simpa [fix_foreign_key_constraint, hr, writeEvents, List.filter_append,
        preFlightSelects, declaredWrites, isWriteEv] using hseg
    | ok dbf =>
      simpa [fix_foreign_key_constraint, hr, writeEvents, List.filter_append,
        preFlightSelects, verificationSelects, declaredWrites, isWriteEv]
        using hseg
  · intro h
    rw [fix_lenFail h]
  · intro h0 h1
    rw [fix_orphanFail h0 h1]

/-- Witness for C6 at the empty state (ordered writes), at a state
failing the length check, and at a state failing the orphan check. -/
theorem claim_C6_witness :
    initSeg (writeEvents (fix_foreign_key_constraint emptyDB).trace)
      declaredWrites = true ∧
    (fix_foreign_key_constraint dbOrphaned).trace = preFlightSelects ++
      [.write "drop_constraint_if_exists" "job_analysis" "fk_job_analysis_user_id",
       .write "drop_constraint_if_exists" "job_analysis" "job_analysis_user_id_fkey",
       .lengthCheck "job_analysis" "user_id" 0 0,
       .write "alter_column_type" "job_analysis" "VARCHAR(255)",
       .orphanCheck "job_analysis" "users_sync" (jaOrphanCount dbOrphaned)] :=
  ⟨(claim_C6 emptyDB).1, (claim_C6 dbOrphaned).2.2 (by decide) (by decide)⟩

/-- C7: on any state with well-formed (duplicate-free) constraint and
trigger catalogs, a successful run of `fix_foreign_key_constraint` or of
`setup_database` can be repeated: the second run succeeds and leaves the
database in the identical state, because create-table, create-index,
add-column and drop-constraint statements are existence-checked and
constraints and triggers are dropped before being re-created. -/
theorem claim_C7 :
    (∀ db : DBState, db.jobAnalysis.fks.Nodup → db.resumes.fks.Nodup →
      (fix_foreign_key_constraint db).success = true →
      (fix_foreign_key_constraint
        ((fix_foreign_key_constraint db).committed)).success = true ∧
      (fix_foreign_key_constraint
        ((fix_foreign_key_constraint db).committed)).committed =
        (fix_foreign_key_constraint db).committed) ∧
    (∀ s : SetupDB, s.triggers.Nodup → (setup_database s).success = true →
      (setup_database (setup_database s).committed).success = true ∧
      (setup_database (setup_database s).committed).committed =
        (setup_database s).committed) :=
  ⟨fun _ hja hres hsucc => fix_idem hja hres hsucc,
   fun _ htr hsucc => setup_idem htr hsucc⟩

/-- Witness for C7 at the empty database and the empty setup state. -/
theorem claim_C7_witness :
    ((fix_foreign_key_constraint
        ((fix_foreign_key_constraint emptyDB).committed)).success = true ∧
      (fix_foreign_key_constraint
        ((fix_foreign_key_constraint emptyDB).committed)).committed =
        (fix_foreign_key_constraint emptyDB).committed) ∧
    ((setup_database (setup_database emptySetupDB).committed).success = true ∧
      (setup_database (setup_database emptySetupDB).committed).committed =
        (setup_database emptySetupDB).committed) :=
  ⟨claim_C7.1 emptyDB (by decide) (by decide) (by decide),
   claim_C7.2 emptySetupDB (by decide) (by decide)⟩

/-- C9: with `DATABASE_URL` unset, every entry point reports failure
(returns `False`, or exit code 1 for `setup-database.py`) with an empty
trace — no connection is attempted and no statement executes. -/
theorem claim_C9 (db : DBState) (dbc : CvDB) (fe : Bool)
    (sqlc : CvDB → Except String CvDB) (dbo : OnboardDB) (fo : Bool)
    (sqlo : OnboardDB → Except String OnboardDB) (dbh : HealthDB) (s : SetupDB) :
    fix_foreign_key_constraint_entry none db =
      { trace := [], committed := db, success := false, failure := none } ∧
    run_cv_migration none fe sqlc dbc =
      { trace := [], committed := dbc, success := false } ∧
    run_onboarding_migration none fo sqlo dbo =
      { trace := [], committed := dbo, success := false } ∧
    run_health_check_migration none dbh =
      { trace := [], committed := dbh, success := false } ∧
    setup_database_main none s = (1, [], { committed := s, success := false }) :=
  ⟨rfl, rfl, rfl, rfl, rfl⟩

/-- C10: in every run of `fix_foreign_key_constraint`,
`run_onboarding_migration` and `run_health_check_migration`, every event
on the connection after the commit is read-only — the verification phase
never mutates schema or data, so the committed state is the run's final
state. -/
theorem claim_C10 :
    (∀ (db : DBState) (e : Event),
      e ∈ afterCommit (fix_foreign_key_constraint db).trace →
      isReadOnlyEv e = true) ∧
    (∀ (url : Option String) (fe : Bool)
      (sql : OnboardDB → Except String OnboardDB) (dbo : OnboardDB) (e : Event),
      e ∈ afterCommit (run_onboarding_migration url fe sql dbo).trace →
      isReadOnlyEv e = true) ∧
    (∀ (url : Option String) (dbh : HealthDB) (e : Event),
      e ∈ afterCommit (run_health_check_migration url dbh).trace →
      isReadOnlyEv e = true) := by
  refine ⟨?_, ?_, ?_⟩
  · intro db e he
    rcases hr : runOps migrationOps db with ⟨tr, res⟩
    have hnc : ∀ x ∈ preFlightSelects ++ tr, x ≠ Event.commit := by
      intro x hx
      rcases List.mem_append.mp hx with hpre | htr
      · simp [preFlightSelects] at hpre
        rcases hpre with h | h | h | h <;> simp [h]
      · have := runOps_no_commit migrationOps db
        rw [hr] at this
        exact this x htr
    cases res with
    | error f =>
      rw [fix_foreign_key_constraint] at he
      rw [hr] at he
      simp only [afterCommit_nil_of_no_commit hnc] at he
      cases he
    | ok dbf =>
      rw [fix_foreign_key_constraint] at he
      rw [hr] at he
      simp only [List.append_assoc] at he
      rw [← List.append_assoc preFlightSelects tr,
        afterCommit_append_of_no_commit hnc] at he
      simp only [List.singleton_append, afterCommit] at he
      simp [verificationSelects] at he
      rcases he with h | h | h | h <;> simp [h, isReadOnlyEv]
  · intro url fe sql dbo e he
    cases url with
    | none => cases he
    | some u =>
      by_cases hfe : fe
      · rcases hsql : sql dbo with f | db1
        · simp [run_onboarding_migration, hfe, hsql, afterCommit] at he
        · by_cases hc : "onboarding_completed_at" ∈ db1.usersSyncCols
          · simp [run_onboarding_migration, hfe, hsql, hc, afterCommit] at he
            rcases he with h | h | h <;> simp [h, isReadOnlyEv]
          · simp [run_onboarding_migration, hfe, hsql, hc, afterCommit] at he
            simp [he, isReadOnlyEv]
      · simp [run_onboarding_migration, hfe, afterCommit] at he
  · intro url dbh e he
    cases url with
    | none => cases he
    | some u =>
      by_cases hu : dbh.hasUpdateFn
      · simp [run_health_check_migration, hu, afterCommit] at he
        simp [he, isReadOnlyEv]
      · simp [run_health_check_migration, hu, afterCommit] at he

/-- Witness for C10: a concrete post-commit event of a successful run is
read-only. -/
theorem claim_C10_witness :
    isReadOnlyEv (Event.select "users_sync.id column metadata") = true :=
  claim_C10.1 emptyDB (Event.select "users_sync.id column metadata") (by decide)
